import Mathlib

/-!
Verification development for the audience-segmentation agent repository.
The Python sources under `src/` are shallowly embedded as executable Lean
definitions: dictionaries become structures with `Option` fields (Python's
`None`/missing key), raised exceptions become `Except String`, and `async`
calls become plain function calls.  External services (the Firecrawl scraper,
the SerpAPI search, the OpenAI completion endpoint) are parameters of the
embedding, so theorems quantify over their behaviour.
-/

namespace Spec2Proof

/-! Utility definitions modelling Python string and list primitives. -/

/-- Does the first character list start with the second? -/
def startsList : List Char → List Char → Bool
  | _, [] => true
  | [], _ :: _ => false
  | a :: l1, b :: l2 => a = b && startsList l1 l2

/-- Does the first character list contain the second as a contiguous run? -/
def containsSeq : List Char → List Char → Bool
  | [], needle => needle.isEmpty
  | a :: t, needle => startsList (a :: t) needle || containsSeq t needle

/-- Python substring test `needle in hay`. -/
def strContains (hay needle : String) : Bool :=
  containsSeq hay.toList needle.toList

/-- ASCII lower-casing of one character (the case Python's `str.lower`
performs on this repository's ASCII data). -/
def lowerChar (c : Char) : Char :=
  if 65 ≤ c.toNat ∧ c.toNat ≤ 90 then Char.ofNat (c.toNat + 32) else c

/-- Python `str.lower()`. -/
def pyToLower (s : String) : String := (s.toList.map lowerChar).asString

/-- ASCII whitespace, the separator set of Python `str.split()` and
`str.strip()`. -/
def isWsChar (c : Char) : Bool :=
  c.toNat = 32 || c.toNat = 9 || c.toNat = 10 || c.toNat = 13 ||
  c.toNat = 11 || c.toNat = 12

/-- Python `str.strip()` with no argument. -/
def pyStrip (s : String) : String :=
  (((s.toList.dropWhile isWsChar).reverse.dropWhile isWsChar).reverse).asString

/-- The word accumulator of Python `str.split()`. -/
def splitWsAux : List Char → List Char → List String
  | [], acc => if acc.isEmpty then [] else [acc.reverse.asString]
  | c :: rest, acc =>
    if isWsChar c then
      if acc.isEmpty then splitWsAux rest []
      else acc.reverse.asString :: splitWsAux rest []
    else splitWsAux rest (c :: acc)

/-- Python `str.split()` with no argument: split on whitespace runs, dropping
empty pieces. -/
def pySplit (s : String) : List String := splitWsAux s.toList []

/-- The splitter of Python `str.split(sep)` for a non-empty separator; the
fuel argument (the text length at entry, an upper bound on the steps) makes
the recursion structural. -/
def pySplitOnAux (sep : List Char) : Nat → List Char → List Char → List (List Char)
  | _, [], acc => [acc.reverse]
  | 0, _ :: _, acc => [acc.reverse]
  | fuel + 1, c :: rest, acc =>
    if startsList (c :: rest) sep then
      acc.reverse :: pySplitOnAux sep fuel ((c :: rest).drop sep.length) []
    else
      pySplitOnAux sep fuel rest (c :: acc)

/-- Python `str.split(sep)` for a non-empty separator. -/
def pySplitOn (s sep : String) : List String :=
  (pySplitOnAux sep.toList s.toList.length s.toList []).map List.asString

/-- Python `str.startswith`. -/
def strStartsWith (s pre : String) : Bool := startsList s.toList pre.toList

/-- Python `f"{x}"` applied to an optional string: `None` formats as "None". -/
def pyStr : Option String → String
  | some s => s
  | none => "None"

/-- Python `x or default` for an optional string (both `None` and the empty
string are falsy). -/
def pyOrStr : Option String → String → String
  | some s, d => if s = "" then d else s
  | none, d => d

/-- Stable insertion: `a` is placed before the first `b` with `le a b`. -/
def pyInsertBy (le : α → α → Bool) (a : α) : List α → List α
  | [] => [a]
  | b :: bs => if le a b then a :: b :: bs else b :: pyInsertBy le a bs

/-- Stable sort, the semantics of Python's `list.sort` with a key: elements
that compare equal keep their original relative order, provided `le` is the
non-strict comparison of keys. -/
def pySortBy (le : α → α → Bool) : List α → List α
  | [] => []
  | a :: rest => pyInsertBy le a (pySortBy le rest)

/-- Lexicographic (code-point) comparison of character lists, the ordering
Python uses for `str` comparison. -/
def charListLe : List Char → List Char → Bool
  | [], _ => true
  | _ :: _, [] => false
  | a :: l1, b :: l2 =>
    if a.toNat < b.toNat then true
    else if b.toNat < a.toNat then false
    else charListLe l1 l2

/-- Python string `<=`, used by `list.sort` when sorting alphabetically. -/
def strLe (a b : String) : Bool := charListLe a.toList b.toList

/-! The uniform tool-result envelope of `src/tools/base.py`.  The payload
dictionary is a type parameter since each tool returns a different shape. -/

/-- ToolResult from `src/tools/base.py`: the standardized result of a tool
execution. -/
structure ToolResult (α : Type) where
  success : Bool
  result : Option α
  error : Option String
  tool_name : Option String
deriving Repr

/-- A failed ToolResult as every tool constructs it: `result` is left at its
default `None`. -/
def failResult (α : Type) (name msg : String) : ToolResult α :=
  { success := false, result := none, error := some msg, tool_name := some name }

/-- The envelope invariant of the specification:
`success=true` implies `error=null` and `success=false` implies `result=null`. -/
def ToolResultInv (r : ToolResult α) : Prop :=
  (r.success = true → r.error = none) ∧ (r.success = false → r.result = none)

/-! Embedding of `src/tools/category_tree_tool.py`.  The category tree is a
parameter (the JSON data file is loaded at construction); a node models one
entry of the tree with its optional `description`, `subcategories` and
`values` keys (an absent `subcategories` key is the empty list, which the
code treats identically). -/

/-- One node of the marketing-category tree. -/
inductive CatNode where
  | mk : String → Option String → List CatNode → Option (List String) → CatNode

def CatNode.name : CatNode → String
  | .mk n _ _ _ => n

def CatNode.description : CatNode → Option String
  | .mk _ d _ _ => d

def CatNode.subcategories : CatNode → List CatNode
  | .mk _ _ s _ => s

def CatNode.values : CatNode → Option (List String)
  | .mk _ _ _ v => v

/-- The root object of `marketing_categories.json` as the tool reads it:
`self.categories.get("categories", [])`. -/
structure CategoriesData where
  categories : List CatNode

/-- Output entry of `_match_subcategories`: a scored subcategory.  The code
adds the `subcategories` and `matched_values` keys only when non-empty;
downstream reads use `.get(..., [])` and `in` tests, so the empty list models
an absent key exactly. -/
inductive MatchedSub where
  | mk : String → String → Nat → List MatchedSub → List String → MatchedSub

def MatchedSub.name : MatchedSub → String
  | .mk n _ _ _ _ => n

def MatchedSub.description : MatchedSub → String
  | .mk _ d _ _ _ => d

def MatchedSub.score : MatchedSub → Nat
  | .mk _ _ s _ _ => s

def MatchedSub.subcategories : MatchedSub → List MatchedSub
  | .mk _ _ _ s _ => s

def MatchedSub.matched_values : MatchedSub → List String
  | .mk _ _ _ _ v => v

/-- Output entry of `_match_categories`: a scored top-level category. -/
structure MatchedCat where
  category : String
  description : String
  score : Nat
  subcategories : List MatchedSub

/-- The fixed keyword table of `_get_keywords_for_category`. -/
def get_keywords_for_category : String → List String
  | "Demographics" => ["age", "gender", "education", "marital status", "ethnicity"]
  | "Financial" => ["money", "income", "wealth", "finance", "investment", "budget"]
  | "Home" => ["house", "apartment", "residence", "property", "rent", "mortgage"]
  | "Life Events" =>
    ["wedding", "marriage", "engagement", "birthday", "anniversary", "graduation"]
  | "Interests" => ["hobby", "passion", "activity", "entertainment", "leisure"]
  | "Shopping and Fashion" => ["clothes", "style", "trend", "retail", "purchase", "buy"]
  | "Technology" => ["tech", "gadget", "device", "digital", "electronic", "computer"]
  | "Behaviors" => ["habit", "pattern", "routine", "lifestyle", "behavior"]
  | _ => []

/-- The top-level score accumulation of `_match_categories`, mirroring the
source's sequence of `score +=` statements for one category. -/
def categoryScore (allText : String) (c : CatNode) : Nat :=
  let catName := pyToLower c.name
  let s := if strContains allText catName then 10 else 0
  let s := (pySplit catName).foldl
    (fun acc w => if w.length > 3 && strContains allText w then acc + 3 else acc) s
  let s := match c.description with
    | some d => if strContains allText (pyToLower d) then s + 5 else s
    | none => s
  let s := (get_keywords_for_category c.name).foldl
    (fun acc k => if strContains allText (pyToLower k) then acc + 2 else acc) s
  if s = 0 &&
      (strContains catName "general" || strContains catName "product" ||
        strContains catName "consumer") then
    s + 1
  else s

/-- The per-subcategory score accumulation of `_match_subcategories`. -/
def subcategoryScore (allText : String) (sub : CatNode) : Nat :=
  let s := if strContains allText (pyToLower sub.name) then 5 else 0
  let s := match sub.description with
    | some d => if strContains allText (pyToLower d) then s + 3 else s
    | none => s
  match sub.values with
  | some vs =>
    vs.foldl (fun acc v => if strContains allText (pyToLower v) then acc + 2 else acc) s
  | none => s

/-- Descending stable comparison on score (Python `sort(key=score, reverse=True)`). -/
def scoreDescLe (a b : MatchedSub) : Bool := decide (b.score ≤ a.score)

/-- Descending stable comparison on score for top-level matches. -/
def catScoreDescLe (a b : MatchedCat) : Bool := decide (b.score ≤ a.score)

mutual

/-- Source `_match_subcategories`: score this category's direct subcategories against
the text, keep those with positive score or non-empty nested matches, sort by
score descending (stable) and truncate to `maxSubcategories`. -/
def match_subcategories (allText : String) (maxSubcategories : Nat) :
    CatNode → List MatchedSub
  | .mk _ _ subs _ =>
    (pySortBy scoreDescLe (collectSubScores allText maxSubcategories subs)).take
      maxSubcategories

/-- The accumulation loop inside `_match_subcategories`. -/
def collectSubScores (allText : String) (maxSubcategories : Nat) :
    List CatNode → List MatchedSub
  | [] => []
  | sub :: rest =>
    let score := subcategoryScore allText sub
    let nested := match_subcategories allText maxSubcategories sub
    let matchedValues := (sub.values.getD []).filter
      (fun v => strContains allText (pyToLower v))
    (if score > 0 || !nested.isEmpty then
      [MatchedSub.mk sub.name (sub.description.getD "") score nested matchedValues]
    else []) ++ collectSubScores allText maxSubcategories rest

end

/-- The accumulation loop over top-level categories in `_match_categories`:
only categories with a positive score are appended. -/
def collectCategoryScores (allText : String) (maxSubcategories : Nat)
    (cats : List CatNode) : List MatchedCat :=
  cats.filterMap (fun c =>
    let score := categoryScore allText c
    if score > 0 then
      some { category := c.name, description := c.description.getD "",
             score := score,
             subcategories := match_subcategories allText maxSubcategories c }
    else none)

/-- The default subcategory of the synthesized "General Consumer Products"
fallback category. -/
def onlineProductsSub : MatchedSub :=
  MatchedSub.mk "Online Products" "Products available for purchase online" 1 [] []

/-- Source `_match_categories`: keyword matching of product text against the tree.
The empty-input branch returns all top-level categories alphabetically with a
fixed score of 5; otherwise categories are scored, sorted descending by score
(stable), a default category is substituted when nothing matched, and the
list is truncated to `maxCategories`. -/
def match_categories (description : String) (features keywords : List String)
    (maxCategories maxSubcategories : Nat) (tree : CategoriesData) :
    List MatchedCat :=
  if pyStrip description = "" ∧ features = [] ∧ keywords = [] then
    (pySortBy (fun a b => strLe a.category b.category)
      (tree.categories.map (fun c =>
        { category := c.name, description := c.description.getD "",
          score := 5, subcategories := ([] : List MatchedSub) }))).take maxCategories
  else
    let allText := pyToLower (String.intercalate " " (description :: (features ++ keywords)))
    let categoryScores :=
      pySortBy catScoreDescLe (collectCategoryScores allText maxSubcategories tree.categories)
    let categoryScores :=
      if categoryScores.isEmpty then
        match tree.categories.find? (fun c =>
          strContains (pyToLower c.name) "general" || strContains (pyToLower c.name) "consumer") with
        | some dc =>
          [{ category := dc.name,
             description := dc.description.getD "General products category",
             score := 1,
             subcategories := match_subcategories allText maxSubcategories dc }]
        | none =>
          [{ category := "General Consumer Products",
             description := "Products intended for general consumer use",
             score := 1, subcategories := [onlineProductsSub] }]
      else categoryScores
    categoryScores.take maxCategories

/-- One atomic targeting criterion of an audience segment (`subcategory` and
`value` keys are present only in some criteria). -/
structure Criterion where
  type : String
  category : String
  subcategory : Option String
  value : Option String
deriving Repr, DecidableEq

/-- An audience segment. -/
structure Segment where
  name : String
  description : String
  targeting_criteria : List Criterion
deriving Repr, DecidableEq

/-- The fixed "Value-Conscious Shoppers" generic segment. -/
def valueSeg : Segment :=
  { name := "Value-Conscious Shoppers",
    description := "Price-sensitive consumers who compare options before purchasing",
    targeting_criteria :=
      [{ type := "behavior", category := "Shopping Behavior", subcategory := none,
         value := some "Price Comparison" },
       { type := "behavior", category := "Shopping Behavior", subcategory := none,
         value := some "Coupon User" }] }

/-- The fixed "Convenience Shoppers" generic segment. -/
def convenienceSeg : Segment :=
  { name := "Convenience Shoppers",
    description := "Consumers who prioritize ease of purchase and quick delivery",
    targeting_criteria :=
      [{ type := "behavior", category := "Shopping Behavior", subcategory := none,
         value := some "Online Shopper" },
       { type := "behavior", category := "Shopping Behavior", subcategory := none,
         value := some "Fast Shipping" }] }

/-- The fixed "Quality-Focused Consumers" generic segment. -/
def qualitySeg : Segment :=
  { name := "Quality-Focused Consumers",
    description := "Shoppers who prioritize product quality and durability over price",
    targeting_criteria :=
      [{ type := "behavior", category := "Shopping Behavior", subcategory := none,
         value := some "Quality-Driven" },
       { type := "demographic", category := "Income", subcategory := none,
         value := some "Above Average" }] }

/-- The segments produced by one iteration of the category loop in
`_generate_audience_segments`: specialized "Seekers" segments (appended
while walking the subcategories), then the primary "Enthusiasts" segment,
then up to three keyword-triggered bonus segments. -/
def segmentsForCategory (cm : MatchedCat) : List Segment :=
  let subs := cm.subcategories
  let primaryCriteria :=
    { type := "interest", category := cm.category, subcategory := none,
      value := none } ::
    subs.flatMap (fun s =>
      { type := "interest", category := cm.category, subcategory := some s.name,
        value := none } ::
      s.matched_values.map (fun v =>
        { type := "interest", category := cm.category, subcategory := some s.name,
          value := some v }))
  let specialized := subs.filterMap (fun s =>
    if s.score > 3 then
      some { name := s.name ++ " Seekers",
             description := "Consumers specifically looking for " ++ pyToLower s.name ++
               " in the " ++ pyToLower cm.category ++ " category",
             targeting_criteria :=
               [{ type := "interest", category := cm.category,
                  subcategory := some s.name, value := none },
                { type := "behavior", category := "Shopping Behavior",
                  subcategory := none, value := some "Product Research" }] }
    else none)
  specialized ++
  [{ name := cm.category ++ " Enthusiasts",
     description := "People interested in " ++ pyToLower cm.category ++
       " products and services",
     targeting_criteria := primaryCriteria }] ++
  (if strContains cm.category "Technology" || strContains cm.category "Electronics" then
    [{ name := "Tech Early Adopters",
       description := "People who seek out the latest technology products and innovations",
       targeting_criteria :=
         [{ type := "interest", category := cm.category, subcategory := none,
            value := none },
          { type := "behavior", category := "Technology", subcategory := none,
            value := some "Early Adopter" }] }]
  else []) ++
  (if strContains cm.category "Fashion" || strContains cm.category "Clothing" ||
      strContains cm.category "Apparel" then
    [{ name := "Fashion-Forward Consumers",
       description := "Style-conscious consumers who follow trends and fashion innovations",
       targeting_criteria :=
         [{ type := "interest", category := cm.category, subcategory := none,
            value := none },
          { type := "demographic", category := "Shopping Behavior", subcategory := none,
            value := some "Trend-Driven" }] }]
  else []) ++
  (if strContains cm.category "Home" || strContains cm.category "Furniture" ||
      strContains cm.category "Decor" then
    [{ name := "Home Improvement Enthusiasts",
       description := "People actively enhancing or renovating their living spaces",
       targeting_criteria :=
         [{ type := "interest", category := cm.category, subcategory := none,
            value := none },
          { type := "life_event", category := "Home", subcategory := none,
            value := some "Moving/Renovating" }] }]
  else [])

/-- Source `_generate_audience_segments`: per-category segments, then the three fixed
generic segments whenever fewer than three segments were produced. -/
def generate_audience_segments (matchedCategories : List MatchedCat) : List Segment :=
  let segs := matchedCategories.flatMap segmentsForCategory
  if segs.length < 3 then segs ++ [valueSeg, convenienceSeg, qualitySeg] else segs

/-- An entry of `_get_all_top_level_categories`. -/
structure TopCatInfo where
  name : String
  description : String
  has_subcategories : Bool
deriving Repr, DecidableEq

/-- Source `_get_all_top_level_categories`: every top-level category with its
description, sorted alphabetically by name. -/
def get_all_top_level_categories (tree : CategoriesData) : List TopCatInfo :=
  pySortBy (fun a b => strLe a.name b.name)
    (tree.categories.map (fun c =>
      { name := c.name, description := c.description.getD "",
        has_subcategories := !c.subcategories.isEmpty }))

/-- An entry of `_get_subcategories_for_category`. -/
structure SubCatInfo where
  name : String
  description : String
  has_subcategories : Bool
  values : List String
deriving Repr, DecidableEq

/-- Source `_get_subcategories_for_category`: direct subcategories of the first
category whose name matches, sorted alphabetically; empty when not found. -/
def get_subcategories_for_category (tree : CategoriesData) (categoryName : String) :
    List SubCatInfo :=
  let subs := match tree.categories.find? (fun c => c.name = categoryName) with
    | some c => c.subcategories.map (fun s =>
        { name := s.name, description := s.description.getD "",
          has_subcategories := !s.subcategories.isEmpty,
          values := s.values.getD [] })
    | none => []
  pySortBy (fun a b => strLe a.name b.name) subs

/-- The parameter dictionary of `CategoryTreeTool.execute` after the `.get`
calls with their defaults. -/
structure CatParams where
  product_description : String
  product_features : List String
  product_keywords : List String
  max_categories : Nat
  max_subcategories : Nat
  mode : String
  parent_category : String

/-- The result dictionary of `CategoryTreeTool.execute`; keys the executed
branch does not set are empty. -/
structure CatResult where
  mode : String
  categories : List TopCatInfo
  parent_category : String
  subcategories : List SubCatInfo
  matched_categories : List MatchedCat
  audience_segments : List Segment

/-- Source `CategoryTreeTool.execute`: the mode dispatch.  `initErr` is the tool's
`initialization_error` (set when the categories file could not be loaded).
The `explore_subcategories` branch is taken only when `parent_category` is
truthy; an empty parent falls through to `match` mode, exactly as the
`elif mode == "explore_subcategories" and parent_category` test does. -/
def categoryTreeExecute (initErr : Option String) (tree : CategoriesData)
    (p : CatParams) : ToolResult CatResult :=
  match initErr with
  | some e =>
    failResult CatResult "category_tree"
      ("Category tree tool is not available: " ++ e)
  | none =>
    if p.mode = "explore_toplevel" then
      { success := true,
        result := some { mode := "explore_toplevel",
                         categories := get_all_top_level_categories tree,
                         parent_category := "", subcategories := [],
                         matched_categories := [], audience_segments := [] },
        error := none, tool_name := some "category_tree" }
    else if p.mode = "explore_subcategories" ∧ p.parent_category ≠ "" then
      { success := true,
        result := some { mode := "explore_subcategories",
                         categories := [],
                         parent_category := p.parent_category,
                         subcategories :=
                           get_subcategories_for_category tree p.parent_category,
                         matched_categories := [], audience_segments := [] },
        error := none, tool_name := some "category_tree" }
    else
      let matched := match_categories p.product_description p.product_features
        p.product_keywords p.max_categories p.max_subcategories tree
      { success := true,
        result := some { mode := "match", categories := [], parent_category := "",
                         subcategories := [],
                         matched_categories := matched,
                         audience_segments := generate_audience_segments matched },
        error := none, tool_name := some "category_tree" }

/-! Embedding of `src/tools/firecrawler_tool.py`.  The Firecrawl API call and
the `_parse_firecrawl_result` text extraction (pure regex post-processing of
the scraped page, irrelevant to every claim) are parameters: `scrape` returns
the raw API payload (`none` models a falsy/empty response, `.error` a raised
exception) and `parse` maps a payload to product data. -/

/-- Product data as `_parse_firecrawl_result` produces it and the
orchestrator consumes it (an empty string or list models a missing/falsy
field). -/
structure ProductData where
  title : String
  price : String
  description : String
  features : List String
  images : List String
deriving Repr, DecidableEq

/-- The fixed denylist of example/fictional domains. -/
def example_domains : List String :=
  ["example.com", "exampleheadphones.com", "domain.com",
   "example.org", "placeholder", "sample", "test.com"]

/-- The error string for a URL without an http/https scheme. -/
def invalidUrlError : String :=
  "Invalid URL format. Please provide a URL starting with http:// or https://."

/-- The error string for a denylisted placeholder domain. -/
def exampleDomainError : String :=
  "The URL appears to be a fictional or example domain. Please provide a real product URL."

/-- Source `FirecrawlerTool.execute` over an abstract scrape service.  `initErr` is
`initialization_error`; `app` is `self.firecrawl_app` (`none` when
construction failed before the client was built). -/
def firecrawlerExecute {σ : Type} (parse : σ → ProductData)
    (initErr : Option String) (app : Option (String → Except String (Option σ)))
    (url : String) : ToolResult ProductData :=
  if initErr.isSome then
    failResult ProductData "firecrawler"
      ("Firecrawler tool is not available: " ++ pyOrStr initErr "Unknown error")
  else if !(strStartsWith url "http://" || strStartsWith url "https://") then
    failResult ProductData "firecrawler" invalidUrlError
  else if example_domains.any (fun d => strContains (pyToLower url) d) then
    failResult ProductData "firecrawler" exampleDomainError
  else
    match app with
    | none =>
      failResult ProductData "firecrawler"
        ("Firecrawl is not available: " ++ pyOrStr initErr "Unknown error")
    | some scrape =>
      match scrape url with
      | .error e =>
        failResult ProductData "firecrawler" ("Error executing firecrawler: " ++ e)
      | .ok none =>
        failResult ProductData "firecrawler" "Empty result returned from Firecrawl API"
      | .ok (some payload) =>
        { success := true, result := some (parse payload), error := none,
          tool_name := some "firecrawler" }

/-! Embedding of `src/tools/serp_analysis_tool.py`.  The GoogleSearch call
and `_extract_market_data_from_serpapi` (pure text post-processing of the
organic results, irrelevant to every claim) are parameters. -/

/-- Market data as `_extract_market_data_from_serpapi` produces it and the
orchestrator consumes it. -/
structure MarketData where
  competitors : List String
  keywords : List String
  search_volume : String
  query : String
deriving Repr, DecidableEq

/-- Source `SerpAnalysisTool.execute` over an abstract search service: `search`
returns the `organic_results` list (an absent key is the empty list) or a
raised exception. -/
def serpAnalysisExecute {σ : Type} (extract : List σ → String → MarketData)
    (search : String → Nat → Except String (List σ))
    (initErr : Option String) (query : String) (resultsCount : Nat) :
    ToolResult MarketData :=
  if initErr.isSome then
    failResult MarketData "serp_analysis"
      ("SerpAPI tool is not available: " ++ pyOrStr initErr "Unknown error")
  else
    if query = "" then
      failResult MarketData "serp_analysis" "Please provide a valid search query."
    else
      match search query (min (max resultsCount 5) 20) with
      | .error e =>
        failResult MarketData "serp_analysis" ("Error executing serp_analysis: " ++ e)
      | .ok organic =>
        if organic.isEmpty then
          failResult MarketData "serp_analysis"
            ("No organic results found for query: " ++ query)
        else
          { success := true, result := some (extract organic query), error := none,
            tool_name := some "serp_analysis" }

/-! Embedding of the `ToolRegistry` of `src/tools/__init__.py`.  Dictionaries
become association lists (`alookup`/`aset`); a tool instance is its `execute`
method, a function that may raise (`Except`).  `π` is the parameter
dictionary type and `α` the result payload type. -/

/-- Python `dict.get(k)`. -/
def alookup (k : String) : List (String × β) → Option β
  | [] => none
  | (k', v) :: rest => if k = k' then some v else alookup k rest

/-- Python `d[k] = v`. -/
def aset (m : List (String × β)) (k : String) (v : β) : List (String × β) :=
  (k, v) :: m

/-- A constructed tool instance: its `execute` method, which may raise. -/
structure ToolExec (π α : Type) where
  exec : π → Except String (ToolResult α)

/-- A registered tool class, by what its instantiation does:
the constructor raises, the instance reports unavailable
(`is_available()` false with the given `initialization_error`), or the
instance is usable. -/
inductive ToolClass (π α : Type) where
  | ctorFails : String → ToolClass π α
  | unavailable : String → ToolClass π α
  | avail : ToolExec π α → ToolClass π α

/-- The class-level state of `ToolRegistry`: `_tools`, `_instances`
(`some none` is a cached failed instantiation, Python's stored `None`) and
`_init_errors`. -/
structure RegState (π α : Type) where
  tools : List (String × ToolClass π α)
  instances : List (String × Option (ToolExec π α))
  initErrors : List (String × String)

/-- The message recorded when instantiation finds the tool unavailable. -/
def unavailableMsg (name e : String) : String :=
  "Tool " ++ name ++ " is not available: " ++ e

/-- The message recorded when the tool constructor raises (the traceback the
source appends is not modelled). -/
def ctorErrorMsg (name e : String) : String :=
  "Error creating tool instance " ++ name ++ ": " ++ e

/-- The message recorded when the name has no registered class. -/
def classNotFoundMsg (name : String) : String :=
  "Tool class " ++ name ++ " not found in registry"

/-- Source `ToolRegistry.get_tool`: lazy singleton instantiation with cached
failures; returns the instance (or Python `None`) and the updated state. -/
def get_tool (name : String) (st : RegState π α) :
    Option (ToolExec π α) × RegState π α :=
  match alookup name st.instances with
  | some cached => (cached, st)
  | none =>
    match alookup name st.tools with
    | none =>
      (none, { st with initErrors := aset st.initErrors name (classNotFoundMsg name) })
    | some (.ctorFails e) =>
      (none, { st with
        initErrors := aset st.initErrors name (ctorErrorMsg name e)
        instances := aset st.instances name none })
    | some (.unavailable e) =>
      (none, { st with
        initErrors := aset st.initErrors name (unavailableMsg name e)
        instances := aset st.instances name none })
    | some (.avail t) =>
      (some t, { st with instances := aset st.instances name (some t) })

/-- The base error of `execute_tool` when the tool cannot be resolved. -/
def toolNotFoundBase (name : String) : String :=
  "Tool not found or not available: " ++ name

/-- The full resolution-failure error of `execute_tool`, appending the
recorded initialization error when one exists. -/
def toolNotFoundMsg (name : String) (recorded : Option String) : String :=
  match recorded with
  | some e => toolNotFoundBase name ++ ". Initialization error: " ++ e
  | none => toolNotFoundBase name

/-- The conversion of a raised tool fault into an error string (the traceback
the source appends is not modelled). -/
def execFaultMsg (name e : String) : String :=
  "Error executing tool " ++ name ++ ": " ++ e

/-- Source `ToolRegistry.execute_tool`: resolve the tool; on failure return a failed
`ToolResult` carrying the recorded reason; otherwise run `execute`,
converting a raised fault into a failed `ToolResult`.  Total: no path
re-raises. -/
def execute_tool (name : String) (params : π) (st : RegState π α) :
    ToolResult α × RegState π α :=
  match get_tool name st with
  | (none, st') =>
    (failResult α name (toolNotFoundMsg name (alookup name st'.initErrors)), st')
  | (some t, st') =>
    match t.exec params with
    | .ok r => (r, st')
    | .error e => (failResult α name (execFaultMsg name e), st')

/-- Reachability invariant of the registry: a cached failed instantiation
always has a recorded reason (every code path that stores `None` in
`_instances` first writes `_init_errors`). -/
def RegInv (st : RegState π α) : Prop :=
  ∀ n, alookup n st.instances = some none → (alookup n st.initErrors).isSome = true

/-- Two registry states agree outside one name: all three dictionaries give
the same answers for every other key. -/
def agreeExcept (st st₂ : RegState π α) (n₀ : String) : Prop :=
  ∀ k, k ≠ n₀ →
    alookup k st.tools = alookup k st₂.tools ∧
    alookup k st.instances = alookup k st₂.instances ∧
    alookup k st.initErrors = alookup k st₂.initErrors

/-! Embedding of `src/workflow_orchestrator.py`.  Python state mutation is
explicit state passing; a raised exception inside a handler is the `.error`
case of the returned `Except`, carrying the state at the point of the raise
(mutations before the raise persist).  The OpenAI calls and the tool-registry
calls are fields of an `Env` record so theorems quantify over their
behaviour, including injected faults.  The narration templates (Python
triple-quoted f-strings) are reproduced by content, without the source's
decorative leading indentation. -/

/-- The seven workflow stages. -/
inductive Stage where
  | initial
  | url_analysis
  | market_research
  | category_mapping
  | audience_segmentation
  | marketing_strategy
  | final_summary
deriving Repr, DecidableEq

/-- Position of a stage in the fixed pipeline order. -/
def Stage.idx : Stage → Nat
  | .initial => 0
  | .url_analysis => 1
  | .market_research => 2
  | .category_mapping => 3
  | .audience_segmentation => 4
  | .marketing_strategy => 5
  | .final_summary => 6

/-- The successor in the fixed pipeline order. -/
def nextStage : Stage → Stage
  | .initial => .url_analysis
  | .url_analysis => .market_research
  | .market_research => .category_mapping
  | .category_mapping => .audience_segmentation
  | .audience_segmentation => .marketing_strategy
  | .marketing_strategy => .final_summary
  | .final_summary => .final_summary

/-- The five pipeline stages between the `initial` entry point and the
`final_summary` Q&A stage. -/
def pipelineStages : List Stage :=
  [.url_analysis, .market_research, .category_mapping,
   .audience_segmentation, .marketing_strategy]

/-- One conversation-history entry. -/
structure Chat where
  role : String
  content : String
deriving Repr, DecidableEq

/-- A matched category as the orchestrator stores it in `category_data`
(subcategory entries are `{"name": ...}` dictionaries). -/
structure MatchedCatO where
  category : String
  subcategories : List String
deriving Repr, DecidableEq

/-- The orchestrator's `category_data` dictionary (set only as a whole;
`none` is the initial empty dictionary). -/
structure CategoryDataO where
  matched_categories : List MatchedCatO
  audience_segments : List Segment
deriving Repr, DecidableEq

/-- One parsed marketing strategy. -/
structure Strategy where
  id : Nat
  content : String
deriving Repr, DecidableEq

/-- The orchestrator's `final_results` dictionary: each key is present once
its stage has stored it. -/
structure FinalResults where
  audience_segments : Option (List Segment)
  marketing_strategies : Option (List Strategy)
deriving Repr, DecidableEq

/-- The orchestrator's conversation state.  For the data dictionaries, `none`
models the falsy empty dictionary. -/
structure OrchState where
  stage : Stage
  history : List Chat
  product_data : Option ProductData
  market_data : Option MarketData
  category_data : Option CategoryDataO
  final_results : FinalResults
deriving Repr, DecidableEq

/-- One entry of the category hierarchy assembled for the combined LLM call. -/
structure HierEntry where
  name : String
  description : String
  subcategories : List SubCatInfo
deriving Repr, DecidableEq

/-- A subcategory selected by the combined LLM analysis. -/
structure SelSub where
  name : String
  explanation : String
deriving Repr, DecidableEq

/-- A category selected by the combined LLM analysis. -/
structure SelCat where
  category : String
  explanation : String
  selected_subcategories : List SelSub
deriving Repr, DecidableEq

/-- The parsed JSON object of the single combined LLM analysis call. -/
structure AnalysisData where
  selected_categories : List SelCat
  audience_segments : List Segment
deriving Repr, DecidableEq

/-- The orchestrator's external collaborators.  Tool calls return the
registry's `ToolResult` (the registry itself never raises, but the model
still allows an injected fault at every call site); LLM calls return text or
a parsed object.  Each receives the current state, which subsumes every
prompt the source builds from it. -/
structure Env where
  firecrawl : String → Nat → Except String (ToolResult ProductData)
  serp : String → Nat → Except String (ToolResult MarketData)
  categoryTop : String → Except String (ToolResult CatResult)
  categorySub : String → String → Except String (ToolResult CatResult)
  llmJson : OrchState → List HierEntry → Except String AnalysisData
  llmStrategies : OrchState → Except String String
  llmNarrate : OrchState → Except String String

/-- The Python `AttributeError` raised by `.get` on `None`. -/
def noneAttrError : String :=
  "\x27NoneType\x27 object has no attribute \x27get\x27"

/-- The recursive-advance step shared by the handlers: concatenate this
stage's narration with the next handler's response, propagating a raised
fault unchanged. -/
def chainStep (p : OrchState × String) (res : OrchState × Except String String) :
    OrchState × Except String String :=
  match res with
  | (st', Except.ok nxt) => (st', Except.ok (p.2 ++ "\n\n" ++ nxt))
  | (st', Except.error e) => (st', Except.error e)

/-- Source `_get_ai_response`: append the structured message to history, call the
completion endpoint, append and return its text; a raised fault is caught
and converted to a fallback string (history keeps only the structured
message, the stage and data are untouched). -/
def get_ai_response (env : Env) (messageContent : String) (st : OrchState) :
    OrchState × String :=
  let st1 := { st with history := st.history ++ [⟨"assistant", messageContent⟩] }
  match env.llmNarrate st1 with
  | .ok ai => ({ st1 with history := st1.history ++ [⟨"assistant", ai⟩] }, ai)
  | .error e =>
    (st1, "I\x27m having trouble generating a response. Please try again. Error: " ++ e)

/-- A handler step that narrates and returns normally. -/
def okAi (env : Env) (msg : String) (st : OrchState) :
    OrchState × Except String String :=
  ((get_ai_response env msg st).1, Except.ok (get_ai_response env msg st).2)

/-- A Python `try:` body with its `except Exception` clause: a raised fault
runs the clause from the state at the raise point. -/
def pyTry (body : OrchState → OrchState × Except String String)
    (onErr : String → OrchState → OrchState × String)
    (st : OrchState) : OrchState × Except String String :=
  match body st with
  | (st', .ok r) => (st', .ok r)
  | (st', .error e) =>
    let p := onErr e st'
    (p.1, .ok p.2)

/-- Source `_format_list`. -/
def format_list (items : List String) : String :=
  if items.isEmpty then "None found"
  else String.intercalate "\n" (items.map (fun i => " " ++ i))

/-- Python truthiness of an optional string (used for `.get(..., '')`). -/
def optTruthy : Option String → Bool
  | some s => s ≠ ""
  | none => false

/-- The ` category > subcategory > value` line of one targeting criterion. -/
def criterionText (c : Criterion) : String :=
  let t := c.category
  let t := if optTruthy c.subcategory then t ++ " > " ++ pyStr c.subcategory else t
  if optTruthy c.value then t ++ " > " ++ pyStr c.value else t

/-- Source `_format_audience_segments`. -/
def format_audience_segments (segments : List Segment) : String :=
  if segments.isEmpty then "No segments found"
  else String.join (segments.map (fun s =>
    " " ++ s.name ++ ":\n  " ++ s.description ++ "\n" ++
    (if !s.targeting_criteria.isEmpty then
      "  Targeting criteria:\n" ++
      String.join ((s.targeting_criteria.take 3).map (fun c =>
        "    - " ++ criterionText c ++ "\n"))
    else "") ++ "\n"))

/-- Source `_format_marketing_strategies`. -/
def format_marketing_strategies (strategies : List Strategy) : String :=
  if strategies.isEmpty then "No strategies available"
  else String.join (strategies.map (fun s =>
    "### Strategy " ++ toString s.id ++ "\n" ++ s.content ++ "\n\n"))

/-- Source `_summarize_categories`. -/
def summarize_categories (categories : List MatchedCatO) : String :=
  if categories.isEmpty then "- No specific categories identified"
  else String.join ((categories.take 2).map (fun c =>
    "- **" ++ c.category ++ "** " ++
    (if !c.subcategories.isEmpty then
      "(" ++ String.intercalate ", " (c.subcategories.take 3) ++ ")\n"
    else "\n")))

/-- The handler apology template of `_handle_url_analysis`. -/
def urlApology (e : String) : String :=
  "I encountered an error while analyzing the product: " ++ e ++
  ". Please try a different URL or try again later."

/-- The handler apology template of `_handle_market_research`. -/
def marketApology (e : String) : String :=
  "I encountered an error during market research: " ++ e ++
  ". Let\x27s try again later with more specific information."

/-- The handler apology template of `_handle_category_mapping`. -/
def categoryApology (e : String) : String :=
  "I encountered an error during category mapping: " ++ e ++
  ". Let\x27s try again with more detailed product information."

/-- The handler apology template of `_handle_audience_segmentation`. -/
def audienceApology (e : String) : String :=
  "I encountered an error during audience segmentation: " ++ e ++
  ". Let\x27s try again with more detailed information about the product and its categories."

/-- The handler apology template of `_handle_marketing_strategy`. -/
def strategyApology (e : String) : String :=
  "I encountered an error while generating marketing strategies: " ++ e ++
  ". Let\x27s try again with more detailed information."

/-- The handler apology template of `_handle_final_summary`. -/
def summaryApology (e : String) : String :=
  "I encountered an error while generating the final summary: " ++ e ++
  ". Please ask about specific parts of the analysis you\x27re interested in."

/-- The markdown final summary assembled by `_handle_final_summary`. -/
def final_summary_text (st : OrchState) : String :=
  let productTitle := match st.product_data with
    | some pd => if pd.title = "" then "the analyzed product" else pd.title
    | none => "the analyzed product"
  let pdGet := fun (f : ProductData → String) =>
    match st.product_data with
    | some pd => let v := f pd; if v = "" then "N/A" else v
    | none => "N/A"
  let features := match st.product_data with
    | some pd => String.intercalate ", " (pd.features.take 3)
    | none => "N/A"
  let competitors := match st.market_data with
    | some md => String.intercalate ", " (md.competitors.take 5)
    | none => "N/A"
  let keywords := match st.market_data with
    | some md => String.intercalate ", " (md.keywords.take 8)
    | none => "N/A"
  let searchVolume := match st.market_data with
    | some md => if md.search_volume = "" then "N/A" else md.search_volume
    | none => "N/A"
  let matchedCategories := match st.category_data with
    | some cd => cd.matched_categories
    | none => []
  "# Complete Analysis for " ++ productTitle ++ "\n\n## Product Overview\n- **Name:** " ++
  pdGet (fun p => p.title) ++ "\n- **Price:** " ++ pdGet (fun p => p.price) ++
  "\n- **Key Features:** " ++ features ++ "\n- **Description:** " ++
  pdGet (fun p => p.description) ++ "\n\n## Market Analysis\n- **Top Competitors:** " ++
  competitors ++ "\n- **Related Keywords:** " ++ keywords ++
  "\n- **Search Volume:** " ++ searchVolume ++ "\n\n## Category Mapping\n" ++
  summarize_categories matchedCategories ++ "\n\n## Audience Segments\n" ++
  format_audience_segments (st.final_results.audience_segments.getD []) ++
  "\n\n## Marketing Recommendations\n" ++
  format_marketing_strategies (st.final_results.marketing_strategies.getD []) ++
  "\n\nThank you for using Audience Andy! You can now ask me questions about this " ++
  "analysis or any part of it that you\x27d like me to elaborate on. Or if you\x27d " ++
  "like to analyze another product, just share a new URL."

/-- The body of `_handle_final_summary` (inside its `try`). -/
def handle_final_summary_body (env : Env) (st : OrchState) :
    OrchState × Except String String :=
  okAi env (final_summary_text st) st

/-- Source `_handle_final_summary`. -/
def handle_final_summary (env : Env) : OrchState → OrchState × Except String String :=
  pyTry (handle_final_summary_body env)
    (fun e st => get_ai_response env (summaryApology e) st)

/-- The strategy parsing of `_generate_marketing_strategies`: split on blank
lines, keep non-blank blocks, number by original block position. -/
def parse_strategies (text : String) : List Strategy :=
  (pySplitOn text "\n\n").enum.filterMap (fun p =>
    if pyStrip p.2 ≠ "" then some { id := p.1 + 1, content := pyStrip p.2 } else none)

/-- The narration input of `_handle_marketing_strategy`. -/
def strategies_response_text (ms : List Strategy) : String :=
  "Here are my recommended marketing strategies:\n\n" ++
  format_marketing_strategies ms ++
  "\n\nNow I\x27ll create a comprehensive summary of the entire analysis..."

/-- The body of `_handle_marketing_strategy`: `_generate_marketing_strategies`
re-raises a failed LLM call as `Failed to generate marketing strategies: ...`,
which propagates to this handler's boundary. -/
def handle_marketing_strategy_body (env : Env) (st : OrchState) :
    OrchState × Except String String :=
  match env.llmStrategies st with
  | .error e => (st, .error ("Failed to generate marketing strategies: " ++ e))
  | .ok text =>
    let marketingStrategies := parse_strategies text
    let st := { st with final_results :=
      { st.final_results with marketing_strategies := some marketingStrategies } }
    let p := get_ai_response env (strategies_response_text marketingStrategies) st
    let st := { p.1 with stage := Stage.final_summary }
    chainStep p (handle_final_summary env st)

/-- Source `_handle_marketing_strategy`. -/
def handle_marketing_strategy (env : Env) : OrchState → OrchState × Except String String :=
  pyTry (handle_marketing_strategy_body env)
    (fun e st => get_ai_response env (strategyApology e) st)

/-- The narration input of `_handle_audience_segmentation`. -/
def segments_info_text (segs : List Segment) : String :=
  "Based on my analysis, here are the recommended audience segments for this product:\n\n" ++
  format_audience_segments segs ++
  "\n\nNow I\x27ll develop marketing strategies for these audience segments..."

/-- The body of `_handle_audience_segmentation`. -/
def handle_audience_segmentation_body (env : Env) (st : OrchState) :
    OrchState × Except String String :=
  match st.category_data with
  | none =>
    okAi env ("I\x27m missing the necessary category information to generate audience segments. Let\x27s go back and make sure we have proper category mapping.") st
  | some cd =>
    let segs := cd.audience_segments
    if segs.isEmpty then
      okAi env ("I couldn\x27t find audience segments in the category data. This is likely a technical issue. Let me generate audience segments based on the product and category information we have.") st
    else
      let st := { st with final_results :=
        { st.final_results with audience_segments := some segs } }
      let p := get_ai_response env (segments_info_text segs) st
      let st := { p.1 with stage := Stage.marketing_strategy }
      chainStep p (handle_marketing_strategy env st)

/-- Source `_handle_audience_segmentation`. -/
def handle_audience_segmentation (env : Env) :
    OrchState → OrchState × Except String String :=
  pyTry (handle_audience_segmentation_body env)
    (fun e st => get_ai_response env (audienceApology e) st)

/-- The two default segments shared by both fallback paths of
`_handle_category_mapping`. -/
def default_segments (productTitle selectedCategory : String) : List Segment :=
  [{ name := productTitle ++ " Enthusiasts",
     description := "People interested in " ++ productTitle ++ " and similar products",
     targeting_criteria :=
       [{ type := "interest", category := selectedCategory, subcategory := none,
          value := none }] },
   { name := "Value Shoppers",
     description := "Price-conscious consumers looking for quality products",
     targeting_criteria :=
       [{ type := "behavior", category := "Shopping Behavior", subcategory := none,
          value := some "Price Comparison" }] }]

/-- Placeholder for `headD` on lists the code has already checked non-empty. -/
def defaultTopCat : TopCatInfo :=
  { name := "", description := "", has_subcategories := false }

/-- Placeholder for `headD` on lists the code has already checked non-empty. -/
def defaultSelCat : SelCat :=
  { category := "", explanation := "", selected_subcategories := [] }

/-- The per-category description lookup
`next((c for c in top_level_categories if c["name"] == category_name), {})`. -/
def hierDescOf (allCats : List TopCatInfo) (name : String) : String :=
  match allCats.find? (fun c => c.name = name) with
  | some c => c.description
  | none => ""

/-- The hierarchy-building loop of `_handle_category_mapping` over the first
five top-level categories.  A raised fault inside one iteration (including
the `.get` on a `None` result) is caught by the loop's inner `try` and the
category is skipped; an unsuccessful result keeps the category with no
subcategories. -/
def build_hierarchy (env : Env) (desc : String) (allCats : List TopCatInfo) :
    List HierEntry :=
  (allCats.take 5).flatMap (fun c =>
    match env.categorySub desc c.name with
    | .error _ => []
    | .ok r =>
      if r.success then
        match r.result with
        | none => []
        | some res =>
          [{ name := c.name, description := hierDescOf allCats c.name,
             subcategories := res.subcategories }]
      else
        [{ name := c.name, description := hierDescOf allCats c.name,
           subcategories := [] }])

/-- The narration input of `_handle_category_mapping`. -/
def category_info_text (finalCategories : List SelCat) : String :=
  "I\x27ve analyzed your product and identified these relevant marketing categories:\n\n" ++
  String.join (finalCategories.map (fun cat =>
    "## " ++ cat.category ++ "\n" ++ cat.explanation ++ "\n\n" ++
    (if !cat.selected_subcategories.isEmpty then
      "Relevant subcategories:\n" ++
      String.join (cat.selected_subcategories.map (fun sub =>
        "- **" ++ sub.name ++ "**: " ++ sub.explanation ++ "\n"))
    else "") ++ "\n")) ++
  "\nNow I\x27ll generate audience segments based on these categories..."

/-- The body of `_handle_category_mapping`: precondition check, the
`explore_toplevel` tool call, concurrent subcategory exploration, the single
combined LLM call with its rule-based fallback, persistence and the
recursive advance. -/
def handle_category_mapping_body (env : Env) (st : OrchState) :
    OrchState × Except String String :=
  match st.product_data, st.market_data with
  | some pd, some _ =>
    let productDescription := pd.description
    match env.categoryTop productDescription with
    | .error e => (st, .error e)
    | .ok topRes =>
      if !topRes.success then
        okAi env ("I had trouble exploring marketing categories: " ++
          pyStr topRes.error ++ ". Let\x27s try a different approach.") st
      else
        match topRes.result with
        | none => (st, .error noneAttrError)
        | some topData =>
          let topLevelCategories := topData.categories
          if topLevelCategories.isEmpty then
            okAi env ("I couldn\x27t find any marketing categories to explore. This is likely a technical issue. Let\x27s try a different approach to analyze your product.") st
          else
            let hierarchy := build_hierarchy env productDescription topLevelCategories
            let selSegs : List SelCat × List Segment :=
              match env.llmJson st hierarchy with
              | .ok ad =>
                let selected := if ad.selected_categories.isEmpty then
                    [{ category := (topLevelCategories.headD defaultTopCat).name,
                       explanation := "Most relevant category based on product description",
                       selected_subcategories := ([] : List SelSub) }]
                  else ad.selected_categories
                let segs := if ad.audience_segments.isEmpty then
                    default_segments pd.title (selected.headD defaultSelCat).category
                  else ad.audience_segments
                (selected, segs)
              | .error _ =>
                let base : SelCat :=
                  { category := (topLevelCategories.headD defaultTopCat).name,
                    explanation := "Default selection based on product type",
                    selected_subcategories := [] }
                let subsSel := hierarchy.foldl (fun acc item =>
                    if item.name = base.category then
                      (item.subcategories.take 2).map (fun sub =>
                        ({ name := sub.name,
                           explanation := "Relevant to product features" } : SelSub))
                    else acc) base.selected_subcategories
                let sel := { base with selected_subcategories := subsSel }
                ([sel], default_segments pd.title sel.category)
            let selectedCategories := selSegs.1
            let audienceSegments := selSegs.2
            let matched := selectedCategories.map (fun c =>
              ({ category := c.category,
                 subcategories := c.selected_subcategories.map (fun s => s.name) } :
                MatchedCatO))
            let cd : CategoryDataO :=
              { matched_categories := matched, audience_segments := audienceSegments }
            let st := { st with category_data := some cd }
            let p := get_ai_response env (category_info_text selectedCategories) st
            let st := { p.1 with stage := Stage.audience_segmentation }
            chainStep p (handle_audience_segmentation env st)
  | _, _ =>
    okAi env ("I\x27m missing the necessary product or market information to perform category mapping. Let\x27s go back and make sure we have both product details and market research.") st

/-- Source `_handle_category_mapping`. -/
def handle_category_mapping (env : Env) : OrchState → OrchState × Except String String :=
  pyTry (handle_category_mapping_body env)
    (fun e st => get_ai_response env (categoryApology e) st)

/-- The narration input of `_handle_market_research`. -/
def market_info_text (productTitle : String) (md : MarketData) : String :=
  "I\x27ve researched the market for " ++ productTitle ++
  ". Here\x27s what I found:\n\nTop competitors:\n" ++ format_list md.competitors ++
  "\n\nRelated keywords:\n" ++ format_list md.keywords ++
  "\n\nNow I\x27ll proceed with mapping this product to marketing categories..."

/-- The body of `_handle_market_research`. -/
def handle_market_research_body (env : Env) (st : OrchState) :
    OrchState × Except String String :=
  let missing := "I\x27m missing the necessary product information to conduct market research. Let\x27s go back and analyze the product URL again."
  match st.product_data with
  | none => okAi env missing st
  | some pd =>
    if pd.title = "" then okAi env missing st
    else
      match env.serp pd.title 10 with
      | .error e => (st, .error e)
      | .ok r =>
        if !r.success then
          okAi env ("I had trouble conducting market research: " ++ pyStr r.error ++
            ". Let\x27s try again later or use a different approach.") st
        else
          let st := { st with market_data := r.result }
          match r.result with
          | none => (st, .error noneAttrError)
          | some md =>
            let md := if md.competitors.isEmpty then
                { md with competitors := ["Similar products in the market"] }
              else md
            let md := if md.keywords.isEmpty then
                let kw := pySplit pd.title
                { md with keywords :=
                  if kw.length < 3 then kw ++ ["online", "quality", "popular"] else kw }
              else md
            let st := { st with market_data := some md }
            let p := get_ai_response env (market_info_text pd.title md) st
            let st := { p.1 with stage := Stage.category_mapping }
            chainStep p (handle_category_mapping env st)

/-- Source `_handle_market_research`. -/
def handle_market_research (env : Env) : OrchState → OrchState × Except String String :=
  pyTry (handle_market_research_body env)
    (fun e st => get_ai_response env (marketApology e) st)

/-- The URL extraction of `_handle_url_analysis`: the first whitespace-split
word starting with "http". -/
def extract_url (msg : String) : Option String :=
  (pySplit msg).find? (fun w => strStartsWith w "http")

/-- The failed-scrape narration input of `_handle_url_analysis`; contains the
retry suggestion. -/
def url_trouble_text (err : Option String) : String :=
  "I had trouble analyzing that product URL: " ++ pyStr err ++
  ". Please try a different URL or try again later."

/-- The narration input of `_handle_url_analysis` on success. -/
def product_info_text (url : String) (pd : ProductData) : String :=
  "I\x27ve analyzed the product at " ++ url ++ ". Here\x27s what I found:\n\nProduct: " ++
  (if pd.title = "" then "Unknown product" else pd.title) ++ "\nPrice: " ++
  (if pd.price = "" then "Price not found" else pd.price) ++ "\n\nKey features:\n" ++
  format_list (if pd.features.isEmpty then ["No features found"] else pd.features) ++
  "\n\nDescription:\n" ++
  (if pd.description = "" then "No description found" else pd.description) ++
  "\n\nI\x27ll now continue with market research for this product..."

/-- The body of the `try` in `_handle_url_analysis`, once a URL was found. -/
def handle_url_analysis_body (url : String) (env : Env) (st : OrchState) :
    OrchState × Except String String :=
  match env.firecrawl url 2 with
  | .error e => (st, .error e)
  | .ok r =>
    if !r.success then
      okAi env (url_trouble_text r.error) st
    else
      let st := { st with product_data := r.result }
      match r.result with
      | none => (st, .error noneAttrError)
      | some pd =>
        let pd := if pd.title = "" then
            { pd with title :=
              let lastPart := (pySplitOn url "/").getLastD ""
              if lastPart = "" then "Unknown Product" else lastPart }
          else pd
        let pd := if pd.features.isEmpty then
            { pd with features := ["Product available online"] }
          else pd
        let pd := if pd.description = "" then
            { pd with description := "Online product at " ++ url }
          else pd
        let st := { st with product_data := some pd }
        let p := get_ai_response env (product_info_text url pd) st
        let st := { p.1 with stage := Stage.market_research }
        chainStep p (handle_market_research env st)

/-- The guarded part of `_handle_url_analysis` for a found URL. -/
def handle_url_analysis_core (url : String) (env : Env) :
    OrchState → OrchState × Except String String :=
  pyTry (handle_url_analysis_body url env)
    (fun e st => get_ai_response env (urlApology e) st)

/-- Source `_handle_url_analysis` (the URL extraction and the no-URL reply sit
outside the `try`). -/
def handle_url_analysis (env : Env) (userMessage : String) (st : OrchState) :
    OrchState × Except String String :=
  match extract_url userMessage with
  | none =>
    okAi env ("I couldn\x27t find a valid URL in your message. Please provide a product URL starting with http:// or https://.") st
  | some url => handle_url_analysis_core url env st

/-- The analysis-intent keyword list of `process_message`. -/
def analysis_keywords : List String :=
  ["analyze", "analysis", "research", "check", "explore", "look at", "review",
   "evaluate", "assess"]

/-- The cancel narration input. -/
def cancel_text : String :=
  "I\x27ve canceled the analysis. If you\x27d like to analyze a product, please share a URL and ask me to analyze it."

/-- The URL-request narration input of the `initial` stage. -/
def ask_url_text : String :=
  "I\x27d be happy to analyze a product for you. To get started, please share the product URL you\x27d like me to analyze."

/-- The default narration input of the fallthrough at the end of
`process_message`. -/
def default_text : String :=
  "I\x27m not sure what to do next. If you\x27d like to analyze a product, please share a URL and ask me to analyze it. Or you can ask me a specific question about audience segmentation or marketing strategies."

/-- Source `process_message`: the transition logic evaluated on every inbound user
message. -/
def process_message (env : Env) (userMessage : String) (st : OrchState) :
    OrchState × Except String String :=
  let st := { st with history := st.history ++ [⟨"user", userMessage⟩] }
  let containsUrl := (pySplit userMessage).any (fun w => strStartsWith w "http")
  let isAnalysisRequest :=
    analysis_keywords.any (fun k => strContains (pyToLower userMessage) k)
  if st.stage = Stage.initial then
    if containsUrl then handle_url_analysis env userMessage st
    else if isAnalysisRequest then okAi env ask_url_text st
    else okAi env userMessage st
  else if st.stage = Stage.final_summary then
    if containsUrl && isAnalysisRequest then
      let st := { st with
        stage := Stage.initial
        product_data := none
        market_data := none
        category_data := none
        final_results := { audience_segments := none, marketing_strategies := none } }
      handle_url_analysis env userMessage st
    else okAi env userMessage st
  else if pyToLower (pyStrip userMessage) = "cancel" ∨ pyToLower (pyStrip userMessage) = "stop" then
    okAi env cancel_text { st with stage := Stage.initial }
  else
    match st.stage with
    | .url_analysis =>
      handle_market_research env { st with stage := Stage.market_research }
    | .market_research =>
      handle_category_mapping env { st with stage := Stage.category_mapping }
    | .category_mapping =>
      handle_audience_segmentation env { st with stage := Stage.audience_segmentation }
    | .audience_segmentation =>
      handle_marketing_strategy env { st with stage := Stage.marketing_strategy }
    | .marketing_strategy =>
      handle_final_summary env { st with stage := Stage.final_summary }
    | _ => okAi env default_text st

/-! Specification-side definitions: restatements in the words of the
specification, to be compared with the source-side definitions above. -/

/-- The top-level category score in the words of the specification: 10 for a
verbatim name, 3 per name word longer than 3 characters found in the text, 5
for a verbatim description, 2 per associated keyword found in the text, and 1
only when the score is otherwise 0 and the name contains "general",
"product" or "consumer". -/
def specCategoryScore (allText : String) (c : CatNode) : Nat :=
  let catName := pyToLower c.name
  let base :=
    (if strContains allText catName then 10 else 0) +
    3 * ((pySplit catName).filter
      (fun w => w.length > 3 && strContains allText w)).length +
    (match c.description with
     | some d => if strContains allText (pyToLower d) then 5 else 0
     | none => 0) +
    2 * ((get_keywords_for_category c.name).filter
      (fun k => strContains allText (pyToLower k))).length
  if base = 0 &&
      (strContains catName "general" || strContains catName "product" ||
        strContains catName "consumer") then
    base + 1
  else base

/-- The matched-categories result in the words of claim C7: keep exactly the
categories with positive score, sorted descending by score with ties in
original order, truncated to `maxCategories`. -/
def c7ClaimResult (allText : String) (maxCategories maxSubcategories : Nat)
    (tree : CategoriesData) : List MatchedCat :=
  (pySortBy catScoreDescLe
    (tree.categories.filterMap (fun c =>
      if 0 < specCategoryScore allText c then
        some { category := c.name, description := c.description.getD "",
               score := specCategoryScore allText c,
               subcategories := match_subcategories allText maxSubcategories c }
      else none))).take maxCategories

/-- The combined lower-cased product text of `_match_categories`. -/
def combinedText (description : String) (features keywords : List String) : String :=
  pyToLower (String.intercalate " " (description :: (features ++ keywords)))

/-! Identification of the six stage handlers for the fault-isolation claim:
each is the `pyTry` of its body with its apology. -/

/-- One of the six pipeline-stage handlers (the URL handler is identified by
the URL its surrounding extraction found). -/
inductive HandlerId where
  | url : String → HandlerId
  | market : HandlerId
  | category : HandlerId
  | audience : HandlerId
  | marketing : HandlerId
  | final : HandlerId

/-- The `try` body of a handler. -/
def handlerBodyOf : HandlerId → Env → OrchState → OrchState × Except String String
  | .url u => handle_url_analysis_body u
  | .market => handle_market_research_body
  | .category => handle_category_mapping_body
  | .audience => handle_audience_segmentation_body
  | .marketing => handle_marketing_strategy_body
  | .final => handle_final_summary_body

/-- The full handler (body plus `except` clause). -/
def handlerOf : HandlerId → Env → OrchState → OrchState × Except String String
  | .url u => handle_url_analysis_core u
  | .market => handle_market_research
  | .category => handle_category_mapping
  | .audience => handle_audience_segmentation
  | .marketing => handle_marketing_strategy
  | .final => handle_final_summary

/-- The apology template of a handler's `except` clause. -/
def apologyOf : HandlerId → String → String
  | .url _ => urlApology
  | .market => marketApology
  | .category => categoryApology
  | .audience => audienceApology
  | .marketing => strategyApology
  | .final => summaryApology

/-- The handler `process_message` dispatches to for each stage it advances
into.  The `initial` and `url_analysis` stages are never the successor of a
pipeline stage; they default to the `final_summary` handler and are unused. -/
def stage_handler : Stage → Env → OrchState → OrchState × Except String String
  | .market_research => handle_market_research
  | .category_mapping => handle_category_mapping
  | .audience_segmentation => handle_audience_segmentation
  | .marketing_strategy => handle_marketing_strategy
  | _ => handle_final_summary

/-! Concrete fixtures used by the witness theorems. -/

/-- A concrete product payload. -/
def testProduct : ProductData :=
  { title := "Widget", price := "$5", description := "A useful widget",
    features := ["portable"], images := [] }

/-- A concrete market payload. -/
def testMarket : MarketData :=
  { competitors := ["acme"], keywords := ["widget", "gadget", "tool"],
    search_volume := "medium", query := "Widget" }

/-- A concrete empty category-tool payload. -/
def stubCatResult : CatResult :=
  { mode := "match", categories := [], parent_category := "", subcategories := [],
    matched_categories := [], audience_segments := [] }

/-- An environment whose collaborators all succeed. -/
def stubEnv : Env :=
  { firecrawl := fun _ _ => .ok
      { success := true, result := some testProduct, error := none,
        tool_name := some "firecrawler" }
    serp := fun _ _ => .ok
      { success := true, result := some testMarket, error := none,
        tool_name := some "serp_analysis" }
    categoryTop := fun _ => .ok
      { success := true, result := some stubCatResult, error := none,
        tool_name := some "category_tree" }
    categorySub := fun _ _ => .ok
      { success := true, result := some stubCatResult, error := none,
        tool_name := some "category_tree" }
    llmJson := fun _ _ => .ok { selected_categories := [], audience_segments := [] }
    llmStrategies := fun _ => .ok "strategy text"
    llmNarrate := fun _ => .ok "narrated" }

/-- An environment whose search collaborator raises. -/
def faultEnv : Env :=
  { stubEnv with serp := fun _ _ => .error "boom" }

/-- The empty conversation state. -/
def st0 : OrchState :=
  { stage := .initial, history := [], product_data := none, market_data := none,
    category_data := none,
    final_results := { audience_segments := none, marketing_strategies := none } }

/-- A state that has completed URL analysis. -/
def stUrl : OrchState :=
  { st0 with stage := .url_analysis, product_data := some testProduct }

/-- A state sitting in the final-summary Q&A stage. -/
def stFS : OrchState :=
  { st0 with stage := .final_summary }

/-- A concrete category tree with a technology category. -/
def testTree : CategoriesData :=
  { categories :=
      [CatNode.mk "Technology" (some "tech products")
        [CatNode.mk "Computers" none [] none] none,
       CatNode.mk "Behaviors" none [] none] }

/-- A one-category tree that matches nothing, exercising the fallback path of
`_match_categories`. -/
def cexTree : CategoriesData :=
  { categories := [CatNode.mk "Zebras" none [] none] }

/-- Concrete category-tool parameters: `explore_subcategories` with an empty
parent. -/
def c10Params : CatParams :=
  { product_description := "", product_features := [], product_keywords := [],
    max_categories := 3, max_subcategories := 5,
    mode := "explore_subcategories", parent_category := "" }

/-- The empty registry state. -/
def emptyReg : RegState Nat Nat :=
  { tools := [], instances := [], initErrors := [] }

/-- A concrete registry whose only tool reports unavailable at construction. -/
def stReg : RegState Nat Nat :=
  { tools := [("alpha", ToolClass.unavailable "no key")], instances := [],
    initErrors := [] }

/-- A concrete registry whose only tool's `execute` raises. -/
def stRegRaise : RegState Nat Nat :=
  { tools := [("beta", ToolClass.avail { exec := fun _ => .error "exec blew up" })],
    instances := [], initErrors := [] }

/-- An environment wired so that the firecrawler calls run the embedded
`FirecrawlerTool.execute` (with a scrape service that would succeed). -/
def wiredEnv : Env :=
  { stubEnv with
    firecrawl := fun url _ =>
      Except.ok (firecrawlerExecute (fun p : ProductData => p) none
        (some (fun _ => Except.ok (some testProduct))) url) }

/-- The specific validation error the scraper reports for a rejected URL:
the scheme check runs before the denylist check. -/
def c9Err (url : String) : String :=
  if (strStartsWith url "http://" || strStartsWith url "https://") = false then
    invalidUrlError
  else exampleDomainError

/-! Generic lemmas about the Python-modelling primitives. -/

theorem foldl_if_add (p : β → Bool) (k : Nat) :
    ∀ (l : List β) (n : Nat),
      l.foldl (fun acc x => if p x then acc + k else acc) n =
        n + k * (l.filter p).length := by
  intro l
  induction l with
  | nil => intro n; simp
  | cons a t ih =>
    intro n
    by_cases h : p a = true
    · simp [List.foldl_cons, h, ih]
      ring
    · simp only [Bool.not_eq_true] at h
      simp [List.foldl_cons, h, ih]

theorem pyInsertBy_length (le : α → α → Bool) (a : α) :
    ∀ l : List α, (pyInsertBy le a l).length = l.length + 1 := by
  intro l
  induction l with
  | nil => rfl
  | cons b bs ih =>
    unfold pyInsertBy
    by_cases h : le a b = true
    · simp [h]
    · simp only [Bool.not_eq_true] at h
      simp [h, ih]

theorem pySortBy_length (le : α → α → Bool) :
    ∀ l : List α, (pySortBy le l).length = l.length := by
  intro l
  induction l with
  | nil => rfl
  | cons a rest ih =>
    unfold pySortBy
    rw [pyInsertBy_length, ih]
    simp

theorem mem_pyInsertBy (le : α → α → Bool) (a b : α) :
    ∀ l : List α, (b ∈ pyInsertBy le a l ↔ b = a ∨ b ∈ l) := by
  intro l
  induction l with
  | nil => simp [pyInsertBy]
  | cons c cs ih =>
    unfold pyInsertBy
    by_cases h : le a c = true
    · simp [h]
    · simp only [Bool.not_eq_true] at h
      simp [h, ih]
      tauto

theorem mem_pySortBy (le : α → α → Bool) (b : α) :
    ∀ l : List α, (b ∈ pySortBy le l ↔ b ∈ l) := by
  intro l
  induction l with
  | nil => simp [pySortBy]
  | cons a rest ih =>
    unfold pySortBy
    rw [mem_pyInsertBy]
    simp [ih]

theorem pairwise_pyInsertBy (le : α → α → Bool)
    (total : ∀ a b, le a b = true ∨ le b a = true)
    (trans : ∀ a b c, le a b = true → le b c = true → le a c = true)
    (a : α) :
    ∀ l : List α, l.Pairwise (fun x y => le x y = true) →
      (pyInsertBy le a l).Pairwise (fun x y => le x y = true) := by
  intro l
  induction l with
  | nil => intro _; simp [pyInsertBy]
  | cons b bs ih =>
    intro hp
    rcases List.pairwise_cons.mp hp with ⟨hb, hbs⟩
    unfold pyInsertBy
    by_cases h : le a b = true
    · simp only [h, if_true]
      refine List.pairwise_cons.mpr ⟨?_, hp⟩
      intro x hx
      rcases List.mem_cons.mp hx with hx | hx
      · exact hx ▸ h
      · exact trans a b x h (hb x hx)
    · simp only [h, if_false]
      refine List.pairwise_cons.mpr ⟨?_, ih hbs⟩
      intro x hx
      rcases (mem_pyInsertBy le a x bs).mp hx with hx | hx
      · rw [hx]
        rcases total a b with h1 | h1
        · exact absurd h1 h
        · exact h1
      · exact hb x hx

theorem pairwise_pySortBy (le : α → α → Bool)
    (total : ∀ a b, le a b = true ∨ le b a = true)
    (trans : ∀ a b c, le a b = true → le b c = true → le a c = true) :
    ∀ l : List α, (pySortBy le l).Pairwise (fun x y => le x y = true) := by
  intro l
  induction l with
  | nil => simp [pySortBy]
  | cons a rest ih =>
    unfold pySortBy
    exact pairwise_pyInsertBy le total trans a _ ih

theorem charListLe_total : ∀ l1 l2 : List Char, charListLe l1 l2 = true ∨ charListLe l2 l1 = true := by
  intro l1
  induction l1 with
  | nil => intro l2; left; rfl
  | cons a t ih =>
    intro l2
    cases l2 with
    | nil => right; rfl
    | cons b t2 =>
      unfold charListLe
      rcases Nat.lt_trichotomy a.toNat b.toNat with h | h | h
      · left; simp [h]
      · have h1 : ¬ a.toNat < b.toNat := by omega
        have h2 : ¬ b.toNat < a.toNat := by omega
        rcases ih t2 with h3 | h3
        · left; simp [h1, h2, h3]
        · right; simp [h1, h2, h3]
      · right; simp [h]

theorem charListLe_trans : ∀ l1 l2 l3 : List Char,
    charListLe l1 l2 = true → charListLe l2 l3 = true → charListLe l1 l3 = true := by
  intro l1
  induction l1 with
  | nil => intro l2 l3 _ _; rfl
  | cons a t ih =>
    intro l2 l3 h12 h23
    cases l2 with
    | nil => simp [charListLe] at h12
    | cons b t2 =>
      cases l3 with
      | nil => simp [charListLe] at h23
      | cons c t3 =>
        unfold charListLe at h12 h23 ⊢
        by_cases hab : a.toNat < b.toNat
        · by_cases hbc : b.toNat < c.toNat
          · have : a.toNat < c.toNat := by omega
            simp [this]
          · simp only [hbc, if_false] at h23
            by_cases hcb : c.toNat < b.toNat
            · simp [hcb] at h23
            · have : a.toNat < c.toNat := by omega
              simp [this]
        · simp only [hab, if_false] at h12
          by_cases hba : b.toNat < a.toNat
          · simp [hba] at h12
          · have hab2 : a.toNat = b.toNat := by omega
            by_cases hbc : b.toNat < c.toNat
            · have : a.toNat < c.toNat := by omega
              simp [this]
            · simp only [hbc, if_false] at h23
              by_cases hcb : c.toNat < b.toNat
              · simp [hcb] at h23
              · have h1 : ¬ a.toNat < c.toNat := by omega
                have h2 : ¬ c.toNat < a.toNat := by omega
                simp only [hba, if_false] at h12
                simp only [hcb, if_false] at h23
                simp [h1, h2]
                exact ih t2 t3 h12 h23

theorem strLe_total (a b : String) : strLe a b = true ∨ strLe b a = true :=
  charListLe_total a.toList b.toList

theorem strLe_trans (a b c : String) :
    strLe a b = true → strLe b c = true → strLe a c = true :=
  charListLe_trans a.toList b.toList c.toList

/-! Claim theorems for the category tool. -/

/-- C6: for every input list of matched categories, including the empty list,
`_generate_audience_segments` returns at least 3 segments; when fewer than 3
exist after the per-category and domain-keyword synthesis, the three fixed
generic segments are appended. -/
theorem c6_segment_floor (matchedCategories : List MatchedCat) :
    3 ≤ (generate_audience_segments matchedCategories).length := by
  unfold generate_audience_segments
  by_cases h : (matchedCategories.flatMap segmentsForCategory).length < 3
  · simp only [h, if_true]
    simp
  · simp only [h, if_false]
    omega

/-- C5: in match mode with an empty stripped description, no features and no
keywords, scoring is skipped and the call returns exactly
`min(maxCategories, |top-level categories|)` categories sorted alphabetically
by name, each with an empty subcategory list and the same fixed placeholder
score of 5. -/
theorem c5_category_fallback (description : String) (features keywords : List String)
    (maxCategories maxSubcategories : Nat) (tree : CategoriesData)
    (hd : pyStrip description = "") (hf : features = []) (hk : keywords = []) :
    match_categories description features keywords maxCategories maxSubcategories tree =
      (pySortBy (fun a b : MatchedCat => strLe a.category b.category)
        (tree.categories.map (fun c =>
          ({ category := c.name, description := c.description.getD "",
             score := 5, subcategories := [] } : MatchedCat)))).take maxCategories ∧
    (match_categories description features keywords maxCategories maxSubcategories
      tree).length = min maxCategories tree.categories.length ∧
    (∀ m ∈ match_categories description features keywords maxCategories
      maxSubcategories tree, m.score = 5 ∧ m.subcategories = []) ∧
    (match_categories description features keywords maxCategories maxSubcategories
      tree).Pairwise (fun a b : MatchedCat => strLe a.category b.category = true) := by
  have he : match_categories description features keywords maxCategories
      maxSubcategories tree =
      (pySortBy (fun a b : MatchedCat => strLe a.category b.category)
        (tree.categories.map (fun c =>
          ({ category := c.name, description := c.description.getD "",
             score := 5, subcategories := [] } : MatchedCat)))).take maxCategories := by
    unfold match_categories
    rw [if_pos ⟨hd, hf, hk⟩]
  refine ⟨he, ?_, ?_, ?_⟩
  · rw [he, List.length_take, pySortBy_length, List.length_map]
  · intro m hm
    rw [he] at hm
    have hm2 := List.mem_of_mem_take hm
    rw [mem_pySortBy] at hm2
    rcases List.mem_map.mp hm2 with ⟨c, _, hc⟩
    rw [← hc]
    exact ⟨rfl, rfl⟩
  · rw [he]
    exact List.Pairwise.sublist (List.take_sublist _ _)
      (pairwise_pySortBy _ (fun a b : MatchedCat => strLe_total a.category b.category)
        (fun a b c : MatchedCat => strLe_trans a.category b.category c.category) _)

/-- Witness for C5 at a concrete tree and empty input. -/
theorem c5_category_fallback_witness :
    pyStrip "" = "" ∧
    (match_categories "" [] [] 3 5 testTree).length = min 3 testTree.categories.length ∧
    (match_categories "" [] [] 3 5 testTree).Pairwise
      (fun a b : MatchedCat => strLe a.category b.category = true) :=
  ⟨rfl, (c5_category_fallback "" [] [] 3 5 testTree rfl rfl rfl).2.1,
    (c5_category_fallback "" [] [] 3 5 testTree rfl rfl rfl).2.2.2⟩

/-- C10: `explore_subcategories` mode with an empty (or missing, which
defaults to empty) `parent_category` returns neither a subcategory listing
nor an error: the call falls through to match mode and returns `success=true`
with `result.mode = "match"`, carrying `matched_categories` and
`audience_segments`. -/
theorem c10_empty_parent_match_mode (tree : CategoriesData) (p : CatParams)
    (hm : p.mode = "explore_subcategories") (hp : p.parent_category = "") :
    (categoryTreeExecute none tree p =
      (let matched := match_categories p.product_description p.product_features
        p.product_keywords p.max_categories p.max_subcategories tree
      ({ success := true,
         result := some { mode := "match", categories := [], parent_category := "",
                          subcategories := [], matched_categories := matched,
                          audience_segments := generate_audience_segments matched },
         error := none, tool_name := some "category_tree" } : ToolResult CatResult))) ∧
    (categoryTreeExecute none tree p).success = true ∧
    (categoryTreeExecute none tree p).error = none ∧
    ((categoryTreeExecute none tree p).result.map (fun r => r.mode)) = some "match" := by
  have he : categoryTreeExecute none tree p =
      (let matched := match_categories p.product_description p.product_features
        p.product_keywords p.max_categories p.max_subcategories tree
      ({ success := true,
         result := some { mode := "match", categories := [], parent_category := "",
                          subcategories := [], matched_categories := matched,
                          audience_segments := generate_audience_segments matched },
         error := none, tool_name := some "category_tree" } : ToolResult CatResult)) := by
    unfold categoryTreeExecute
    rw [hm, hp]
    simp
  exact ⟨he, by rw [he], by rw [he], by rw [he]; rfl⟩

/-- Witness for C10 at a concrete tree and parameters. -/
theorem c10_empty_parent_match_mode_witness :
    c10Params.mode = "explore_subcategories" ∧ c10Params.parent_category = "" ∧
    ((categoryTreeExecute none testTree c10Params).result.map (fun r => r.mode)) =
      some "match" :=
  ⟨rfl, rfl, (c10_empty_parent_match_mode testTree c10Params rfl rfl).2.2.2⟩

/-- The failure envelope always satisfies the invariant. -/
theorem failResult_inv (α : Type) (n m : String) : ToolResultInv (failResult α n m) :=
  ⟨fun h => Bool.noConfusion h, fun _ => rfl⟩

/-- A resolved tool returned by `get_tool` comes either from the instance
cache or from an available registered class. -/
theorem get_tool_some_src {π α : Type} (name : String) (st : RegState π α)
    (t : ToolExec π α) (st' : RegState π α)
    (h : get_tool name st = (some t, st')) :
    alookup name st.instances = some (some t) ∨
      alookup name st.tools = some (ToolClass.avail t) := by
  unfold get_tool at h
  cases hc : alookup name st.instances with
  | some cached =>
    simp only [hc, Prod.mk.injEq] at h
    left
    rw [h.1]
  | none =>
    simp only [hc] at h
    cases ht : alookup name st.tools with
    | none =>
      simp only [ht, Prod.mk.injEq] at h
      exact Option.noConfusion h.1
    | some cls =>
      cases cls with
      | ctorFails e =>
        simp only [ht, Prod.mk.injEq] at h
        exact Option.noConfusion h.1
      | unavailable e =>
        simp only [ht, Prod.mk.injEq] at h
        exact Option.noConfusion h.1
      | avail t' =>
        simp only [ht, Prod.mk.injEq, Option.some.injEq] at h
        right
        rw [h.1]

/-- C4: every ToolResult constructed in the system satisfies the envelope
invariant — the registry's own constructions unconditionally, its
pass-through under the assumption that the resolved tool's successful
results satisfy it, and all construction sites in the three tools' execute
paths unconditionally. -/
theorem c4_envelope {π α : Type} (st : RegState π α) (name : String) (params : π)
    (hexec : ∀ te : ToolExec π α,
      (alookup name st.instances = some (some te) ∨
        alookup name st.tools = some (ToolClass.avail te)) →
      ∀ r, te.exec params = Except.ok r → ToolResultInv r) :
    ToolResultInv (execute_tool name params st).1 ∧
    (∀ (σ : Type) (parse : σ → ProductData) (initErr : Option String)
      (app : Option (String → Except String (Option σ))) (url : String),
      ToolResultInv (firecrawlerExecute parse initErr app url)) ∧
    (∀ (σ : Type) (extract : List σ → String → MarketData)
      (search : String → Nat → Except String (List σ)) (initErr : Option String)
      (query : String) (rc : Nat),
      ToolResultInv (serpAnalysisExecute extract search initErr query rc)) ∧
    (∀ (initErr : Option String) (tree : CategoriesData) (p : CatParams),
      ToolResultInv (categoryTreeExecute initErr tree p)) := by
  refine ⟨?_, ?_, ?_, ?_⟩
  · unfold execute_tool
    rcases hgt : get_tool name st with ⟨tool?, st'⟩
    cases tool? with
    | none => exact failResult_inv α name _
    | some t =>
      cases ht : t.exec params with
      | ok r => simp only [ht]; exact hexec t (get_tool_some_src name st t st' hgt) r ht
      | error e => simp only [ht]; exact failResult_inv α name _
  · intro σ parse initErr app url
    unfold firecrawlerExecute
    repeat' split
    all_goals first
      | exact failResult_inv _ _ _
      | exact ⟨fun _ => rfl, fun h => Bool.noConfusion h⟩
  · intro σ extract search initErr query rc
    unfold serpAnalysisExecute
    repeat' split
    all_goals first
      | exact failResult_inv _ _ _
      | exact ⟨fun _ => rfl, fun h => Bool.noConfusion h⟩
  · intro initErr tree p
    unfold categoryTreeExecute
    repeat' split
    all_goals first
      | exact failResult_inv _ _ _
      | exact ⟨fun _ => rfl, fun h => Bool.noConfusion h⟩

/-- Witness for C4 on a concrete registry (empty, so the unregistered-name
branch constructs the result) and concrete tool inputs. -/
theorem c4_envelope_witness :
    ToolResultInv (execute_tool "firecrawler" 0 emptyReg).1 ∧
    ToolResultInv (categoryTreeExecute none testTree c10Params) := by
  have h := c4_envelope emptyReg "firecrawler" 0
    (by intro te h r hr; rcases h with h | h <;> simp [alookup, emptyReg] at h)
  exact ⟨h.1, h.2.2.2 none testTree c10Params⟩

/-- The claim's score formula agrees with the source's accumulation. -/
theorem specCategoryScore_eq (allText : String) (c : CatNode) :
    specCategoryScore allText c = categoryScore allText c := by
  unfold specCategoryScore categoryScore
  simp only [foldl_if_add]
  cases hd : c.description with
  | none => simp
  | some d =>
    by_cases hsd : strContains allText (pyToLower d) = true
    · simp [hsd]
    · simp only [Bool.not_eq_true] at hsd
      simp [hsd]

/-- The descending score comparison is total. -/
theorem catScoreDescLe_total (a b : MatchedCat) :
    catScoreDescLe a b = true ∨ catScoreDescLe b a = true := by
  unfold catScoreDescLe
  rcases Nat.le_total b.score a.score with h | h
  · left; exact decide_eq_true h
  · right; exact decide_eq_true h

/-- The descending score comparison is transitive. -/
theorem catScoreDescLe_trans (a b c : MatchedCat) :
    catScoreDescLe a b = true → catScoreDescLe b c = true →
      catScoreDescLe a c = true := by
  unfold catScoreDescLe
  intro h1 h2
  exact decide_eq_true (Nat.le_trans (of_decide_eq_true h2) (of_decide_eq_true h1))

/-- The per-call truncation bound of `_match_subcategories`. -/
theorem match_subcategories_length (allText : String) (maxSubcategories : Nat)
    (c : CatNode) :
    (match_subcategories allText maxSubcategories c).length ≤ maxSubcategories := by
  cases c with
  | mk n d subs v =>
    unfold match_subcategories
    exact List.length_take_le _ _

/-- C7 (amended): for non-empty input text, when at least one category scores
above 0, `_match_categories` returns exactly the positively scored categories
(the claim's score formula), sorted descending by score with ties in
original order, truncated to `maxCategories`, each with subcategories
truncated to `maxSubcategories`. -/
theorem c7_scoring (description : String) (features keywords : List String)
    (maxCategories maxSubcategories : Nat) (tree : CategoriesData)
    (hne : ¬(pyStrip description = "" ∧ features = [] ∧ keywords = []))
    (hpos : ∃ c ∈ tree.categories,
      0 < specCategoryScore (combinedText description features keywords) c) :
    match_categories description features keywords maxCategories maxSubcategories tree =
      c7ClaimResult (combinedText description features keywords) maxCategories
        maxSubcategories tree ∧
    (∀ m ∈ match_categories description features keywords maxCategories
      maxSubcategories tree, m.subcategories.length ≤ maxSubcategories) ∧
    (match_categories description features keywords maxCategories maxSubcategories
      tree).Pairwise (fun a b : MatchedCat => b.score ≤ a.score) := by
  have hfun : (fun c : CatNode =>
      if 0 < specCategoryScore (combinedText description features keywords) c then
        some ({ category := c.name, description := c.description.getD "",
                score := specCategoryScore (combinedText description features keywords) c,
                subcategories := match_subcategories
                  (combinedText description features keywords) maxSubcategories c } :
          MatchedCat)
      else none) =
      (fun c : CatNode =>
        let score := categoryScore (combinedText description features keywords) c
        if score > 0 then
          some ({ category := c.name, description := c.description.getD "",
                  score := score,
                  subcategories := match_subcategories
                    (combinedText description features keywords) maxSubcategories c } :
            MatchedCat)
        else none) := by
    funext c
    rw [specCategoryScore_eq]
  have hclaim : c7ClaimResult (combinedText description features keywords)
      maxCategories maxSubcategories tree =
      (pySortBy catScoreDescLe
        (collectCategoryScores (combinedText description features keywords)
          maxSubcategories tree.categories)).take maxCategories := by
    unfold c7ClaimResult collectCategoryScores
    rw [hfun]
  obtain ⟨c, hcmem, hcpos⟩ := hpos
  have hcpos2 : 0 < categoryScore (combinedText description features keywords) c := by
    rw [← specCategoryScore_eq]; exact hcpos
  have hmem : ({ category := c.name,
                 description := c.description.getD "",
                 score := categoryScore (combinedText description features keywords) c,
                 subcategories := match_subcategories
                   (combinedText description features keywords) maxSubcategories c } :
      MatchedCat) ∈
      collectCategoryScores (combinedText description features keywords)
        maxSubcategories tree.categories := by
    unfold collectCategoryScores
    refine List.mem_filterMap.mpr ⟨c, hcmem, ?_⟩
    simp only [hcpos2, if_pos]
  have hne2 : (pySortBy catScoreDescLe
      (collectCategoryScores (combinedText description features keywords)
        maxSubcategories tree.categories)).isEmpty = false := by
    have := (mem_pySortBy catScoreDescLe _ _).mpr hmem
    rcases hl : pySortBy catScoreDescLe
      (collectCategoryScores (combinedText description features keywords)
        maxSubcategories tree.categories) with _ | ⟨x, xs⟩
    · rw [hl] at this; cases this
    · rfl
  have he : match_categories description features keywords maxCategories
      maxSubcategories tree =
      (pySortBy catScoreDescLe
        (collectCategoryScores (combinedText description features keywords)
          maxSubcategories tree.categories)).take maxCategories := by
    unfold match_categories
    rw [if_neg hne]
    unfold combinedText at hne2 ⊢
    simp only [hne2, Bool.false_eq_true, if_false]
  refine ⟨by rw [he, hclaim], ?_, ?_⟩
  · intro m hm
    rw [he] at hm
    have hm2 := List.mem_of_mem_take hm
    rw [mem_pySortBy] at hm2
    unfold collectCategoryScores at hm2
    rcases List.mem_filterMap.mp hm2 with ⟨c', _, hc'⟩
    by_cases hsc : categoryScore (combinedText description features keywords) c' > 0
    · simp only [hsc, if_pos] at hc'
      rw [← Option.some.inj hc']
      exact match_subcategories_length _ _ _
    · simp only [hsc, if_neg] at hc'
      exact Option.noConfusion hc'
  · rw [he]
    refine List.Pairwise.imp ?_
      (List.Pairwise.sublist (List.take_sublist _ _)
        (pairwise_pySortBy catScoreDescLe catScoreDescLe_total catScoreDescLe_trans _))
    intro a b hab
    exact of_decide_eq_true hab

/-- Counterexample to C7 as stated: on a tree where no category scores above
0 (and no name contains general/product/consumer), the code returns the
synthesized fallback category while the claim's formula returns the empty
list. -/
theorem c7_counterexample :
    match_categories "hello" [] [] 3 5 cexTree ≠
      c7ClaimResult (combinedText "hello" [] []) 3 5 cexTree := by
  intro h
  have hl := congrArg List.length h
  have h1 : (match_categories "hello" [] [] 3 5 cexTree).length = 1 := by decide
  have h2 : (c7ClaimResult (combinedText "hello" [] []) 3 5 cexTree).length = 0 := by
    decide
  rw [h1, h2] at hl
  exact absurd hl (by decide)

/-- Witness for C7 on a concrete tree and text where a category scores
positively. -/
theorem c7_scoring_witness :
    pyStrip "digital gadget" ≠ "" ∧
    0 < specCategoryScore (combinedText "digital gadget" [] [])
      (CatNode.mk "Technology" (some "tech products")
        [CatNode.mk "Computers" none [] none] none) ∧
    match_categories "digital gadget" [] [] 3 5 testTree =
      c7ClaimResult (combinedText "digital gadget" [] []) 3 5 testTree := by
  refine ⟨by decide, by decide, ?_⟩
  refine (c7_scoring "digital gadget" [] [] 3 5 testTree
    (fun hcon => absurd hcon.1 (by decide)) ?_).1
  refine ⟨CatNode.mk "Technology" (some "tech products")
    [CatNode.mk "Computers" none [] none] none, ?_, by decide⟩
  unfold testTree
  exact List.mem_cons_self _ _

/-- Setting a key makes it resolvable. -/
theorem alookup_aset_self (m : List (String × β)) (k : String) (v : β) :
    alookup k (aset m k v) = some v := by
  simp [alookup, aset]

/-- Setting one key leaves every other key's resolution unchanged. -/
theorem alookup_aset_ne (m : List (String × β)) (k k' : String) (v : β)
    (h : k ≠ k') : alookup k (aset m k' v) = alookup k m := by
  simp [alookup, aset, h]

/-- Lemma: `get_tool` on a cached name returns the cache entry and leaves the state
unchanged. -/
theorem get_tool_cached {π α : Type} (name : String) (st : RegState π α)
    (cached : Option (ToolExec π α))
    (h : alookup name st.instances = some cached) :
    get_tool name st = (cached, st) := by
  unfold get_tool
  rw [h]

/-- Lemma: `get_tool` on an unregistered name records the class-not-found reason. -/
theorem get_tool_noclass {π α : Type} (name : String) (st : RegState π α)
    (h1 : alookup name st.instances = none) (h2 : alookup name st.tools = none) :
    get_tool name st =
      (none, { st with initErrors := aset st.initErrors name (classNotFoundMsg name) }) := by
  unfold get_tool
  rw [h1, h2]

/-- Lemma: `get_tool` on a class whose constructor raises caches the failure with
its reason. -/
theorem get_tool_ctor {π α : Type} (name : String) (st : RegState π α) (e : String)
    (h1 : alookup name st.instances = none)
    (h2 : alookup name st.tools = some (ToolClass.ctorFails e)) :
    get_tool name st =
      (none, { st with
        initErrors := aset st.initErrors name (ctorErrorMsg name e)
        instances := aset st.instances name none }) := by
  unfold get_tool
  rw [h1, h2]

/-- Lemma: `get_tool` on an unavailable tool caches the failure with its reason. -/
theorem get_tool_unavail {π α : Type} (name : String) (st : RegState π α) (e : String)
    (h1 : alookup name st.instances = none)
    (h2 : alookup name st.tools = some (ToolClass.unavailable e)) :
    get_tool name st =
      (none, { st with
        initErrors := aset st.initErrors name (unavailableMsg name e)
        instances := aset st.instances name none }) := by
  unfold get_tool
  rw [h1, h2]

/-- Lemma: `get_tool` on an available class caches and returns the instance. -/
theorem get_tool_avail {π α : Type} (name : String) (st : RegState π α)
    (t : ToolExec π α)
    (h1 : alookup name st.instances = none)
    (h2 : alookup name st.tools = some (ToolClass.avail t)) :
    get_tool name st =
      (some t, { st with instances := aset st.instances name (some t) }) := by
  unfold get_tool
  rw [h1, h2]

/-- Resolution and the recorded reason for one name only depend on that
name's entries: two states agreeing outside `n₀` resolve any other name
identically. -/
theorem get_tool_agree {π α : Type} (name n₀ : String) (st st₂ : RegState π α)
    (hne : name ≠ n₀) (hag : agreeExcept st st₂ n₀) :
    (get_tool name st₂).1 = (get_tool name st).1 ∧
    alookup name (get_tool name st₂).2.initErrors =
      alookup name (get_tool name st).2.initErrors := by
  obtain ⟨h1, h2, h3⟩ := hag name hne
  cases hc : alookup name st.instances with
  | some cached =>
    rw [get_tool_cached name st cached hc,
      get_tool_cached name st₂ cached (by rw [← h2]; exact hc)]
    exact ⟨rfl, h3.symm⟩
  | none =>
    have hc2 : alookup name st₂.instances = none := by rw [← h2]; exact hc
    cases ht : alookup name st.tools with
    | none =>
      rw [get_tool_noclass name st hc ht,
        get_tool_noclass name st₂ hc2 (by rw [← h1]; exact ht)]
      exact ⟨rfl, by rw [alookup_aset_self, alookup_aset_self]⟩
    | some cls =>
      have ht2 : alookup name st₂.tools = some cls := by rw [← h1]; exact ht
      cases cls with
      | ctorFails e =>
        rw [get_tool_ctor name st e hc ht, get_tool_ctor name st₂ e hc2 ht2]
        exact ⟨rfl, by rw [alookup_aset_self, alookup_aset_self]⟩
      | unavailable e =>
        rw [get_tool_unavail name st e hc ht, get_tool_unavail name st₂ e hc2 ht2]
        exact ⟨rfl, by rw [alookup_aset_self, alookup_aset_self]⟩
      | avail t =>
        rw [get_tool_avail name st t hc ht, get_tool_avail name st₂ t hc2 ht2]
        exact ⟨rfl, h3.symm⟩

/-- The post-resolution recorded reason exists whenever resolution failed
(under the registry reachability invariant). -/
theorem get_tool_none_recorded {π α : Type} (name : String) (st : RegState π α)
    (hinv : RegInv st) (h : (get_tool name st).1 = none) :
    ∃ e, alookup name (get_tool name st).2.initErrors = some e := by
  cases hc : alookup name st.instances with
  | some cached =>
    rw [get_tool_cached name st cached hc] at h ⊢
    cases cached with
    | some t => cases h
    | none =>
      have := hinv name hc
      exact Option.isSome_iff_exists.mp this
  | none =>
    cases ht : alookup name st.tools with
    | none =>
      rw [get_tool_noclass name st hc ht]
      exact ⟨classNotFoundMsg name, alookup_aset_self _ _ _⟩
    | some cls =>
      cases cls with
      | ctorFails e =>
        rw [get_tool_ctor name st e hc ht]
        exact ⟨ctorErrorMsg name e, alookup_aset_self _ _ _⟩
      | unavailable e =>
        rw [get_tool_unavail name st e hc ht]
        exact ⟨unavailableMsg name e, alookup_aset_self _ _ _⟩
      | avail t =>
        rw [get_tool_avail name st t hc ht] at h
        cases h

/-- C1: `execute_tool` never raises.  When the name is unregistered or the
tool failed initialization it returns `success=false` with a non-null error
carrying the recorded registration/initialization reason; a raised fault of
the resolved tool's `execute` is converted into a failed result describing
the fault; a successful execute is passed through; and the result for a name
is unchanged by arbitrary differences (such as a construction failure) in
any other name's entries. -/
theorem c1_execute_tool {π α : Type} (st : RegState π α) (name : String)
    (params : π) (hinv : RegInv st) :
    ((get_tool name st).1 = none →
      (execute_tool name params st).1.success = false ∧
      (execute_tool name params st).1.result = none ∧
      ∃ e, alookup name (get_tool name st).2.initErrors = some e ∧
        (execute_tool name params st).1.error =
          some (toolNotFoundBase name ++ ". Initialization error: " ++ e)) ∧
    (∀ t e, (get_tool name st).1 = some t → t.exec params = Except.error e →
      (execute_tool name params st).1 = failResult α name (execFaultMsg name e)) ∧
    (∀ t r, (get_tool name st).1 = some t → t.exec params = Except.ok r →
      (execute_tool name params st).1 = r) ∧
    (∀ (st₂ : RegState π α) (n₀ : String), name ≠ n₀ → agreeExcept st st₂ n₀ →
      RegInv st₂ → (execute_tool name params st₂).1 = (execute_tool name params st).1) := by
  refine ⟨?_, ?_, ?_, ?_⟩
  · intro h
    obtain ⟨e, he⟩ := get_tool_none_recorded name st hinv h
    unfold execute_tool
    rcases hgt : get_tool name st with ⟨tool?, st'⟩
    rw [hgt] at h he
    cases tool? with
    | some t => cases h
    | none =>
      refine ⟨rfl, rfl, e, he, ?_⟩
      simp only [toolNotFoundMsg, he, failResult]
  · intro t e hgt1 hex
    unfold execute_tool
    rcases hgt : get_tool name st with ⟨tool?, st'⟩
    rw [hgt] at hgt1
    cases tool? with
    | none => cases hgt1
    | some t' =>
      cases hgt1
      show (match t.exec params with
        | Except.ok r => (r, st')
        | Except.error e => (failResult α name (execFaultMsg name e), st')).1 =
        failResult α name (execFaultMsg name e)
      rw [hex]
  · intro t r hgt1 hex
    unfold execute_tool
    rcases hgt : get_tool name st with ⟨tool?, st'⟩
    rw [hgt] at hgt1
    cases tool? with
    | none => cases hgt1
    | some t' =>
      cases hgt1
      show (match t.exec params with
        | Except.ok r => (r, st')
        | Except.error e => (failResult α name (execFaultMsg name e), st')).1 = r
      rw [hex]
  · intro st₂ n₀ hne hag _
    obtain ⟨hfst, herr⟩ := get_tool_agree name n₀ st st₂ hne hag
    unfold execute_tool
    rcases hgt : get_tool name st with ⟨tool?, st'⟩
    rcases hgt2 : get_tool name st₂ with ⟨tool2?, st2'⟩
    rw [hgt, hgt2] at hfst
    rw [hgt, hgt2] at herr
    cases tool? with
    | none =>
      cases tool2? with
      | none => simp only [toolNotFoundMsg, herr]
      | some t => cases hfst
    | some t =>
      cases tool2? with
      | none => cases hfst
      | some t2 =>
        cases hfst
        show (match t.exec params with
          | Except.ok r => (r, st2')
          | Except.error e => (failResult α name (execFaultMsg name e), st2')).1 =
          (match t.exec params with
          | Except.ok r => (r, st')
          | Except.error e => (failResult α name (execFaultMsg name e), st')).1
        cases t.exec params <;> rfl

/-- Witness for C1 on a concrete registry whose single tool failed
initialization. -/
theorem c1_execute_tool_witness :
    RegInv stReg ∧
    (execute_tool "alpha" (0 : Nat) stReg).1.success = false ∧
    (execute_tool "alpha" (0 : Nat) stReg).1.result = none ∧
    (execute_tool "alpha" (0 : Nat) stReg).1.error =
      some ("Tool not found or not available: alpha. Initialization error: Tool alpha is not available: no key") := by
  have hinv : RegInv stReg := by
    intro n h
    simp [stReg, alookup] at h
  obtain ⟨h1, h2, e, he, herr⟩ := (c1_execute_tool stReg "alpha" 0 hinv).1 rfl
  refine ⟨hinv, h1, h2, ?_⟩
  have hval : alookup "alpha" (get_tool "alpha" stReg).2.initErrors =
      some ("Tool alpha is not available: no key") := rfl
  rw [hval] at he
  rw [herr, ← Option.some.inj he]
  decide

/-! Frame lemmas for the orchestrator: narration never touches the stage or
the accumulated data. -/

/-- Lemma: `_get_ai_response` only appends to history. -/
theorem get_ai_response_frame (env : Env) (msg : String) (st : OrchState) :
    (get_ai_response env msg st).1.stage = st.stage ∧
    (get_ai_response env msg st).1.product_data = st.product_data ∧
    (get_ai_response env msg st).1.market_data = st.market_data ∧
    (get_ai_response env msg st).1.category_data = st.category_data ∧
    (get_ai_response env msg st).1.final_results = st.final_results := by
  rcases h : env.llmNarrate { st with history := st.history ++ [⟨"assistant", msg⟩] }
    with e | ai <;> simp [get_ai_response, h]

/-- Lemma: `okAi` only appends to history and always returns normally. -/
theorem okAi_frame (env : Env) (msg : String) (st : OrchState) :
    (okAi env msg st).1.stage = st.stage ∧
    (okAi env msg st).1.product_data = st.product_data ∧
    (okAi env msg st).1.market_data = st.market_data ∧
    (okAi env msg st).1.category_data = st.category_data ∧
    (okAi env msg st).1.final_results = st.final_results ∧
    (okAi env msg st).2 = Except.ok (get_ai_response env msg st).2 := by
  obtain ⟨h1, h2, h3, h4, h5⟩ := get_ai_response_frame env msg st
  exact ⟨h1, h2, h3, h4, h5, rfl⟩

/-- A raised fault inside a `try` body runs the `except` clause from the
fault-point state. -/
theorem pyTry_fault (body : OrchState → OrchState × Except String String)
    (onErr : String → OrchState → OrchState × String) (st st₁ : OrchState)
    (e : String) (h : body st = (st₁, Except.error e)) :
    pyTry body onErr st = ((onErr e st₁).1, Except.ok (onErr e st₁).2) := by
  unfold pyTry
  rw [h]

/-- The state a handler leaves behind is the state its body leaves behind:
the `except` clause only narrates (and in particular preserves the stage). -/
theorem pyTry_stage (body : OrchState → OrchState × Except String String)
    (env : Env) (apology : String → String) (st : OrchState) :
    (pyTry body (fun e s => get_ai_response env (apology e) s) st).1.stage =
      (body st).1.stage := by
  unfold pyTry
  rcases h : body st with ⟨st', r⟩
  cases r with
  | error e =>
    simp only [h]
    exact (get_ai_response_frame env _ st').1
  | ok v => simp only [h]

/-- C2: a fault raised inside any stage handler's body is caught at the
handler's boundary: the handler returns the narration of that handler's
apology (a non-null text, never the fault), and the stage is exactly
whatever the body had set before the failing call. -/
theorem c2_handler_fault (h : HandlerId) (env : Env) (st st₁ : OrchState)
    (e : String) (hf : handlerBodyOf h env st = (st₁, Except.error e)) :
    handlerOf h env st =
      ((get_ai_response env (apologyOf h e) st₁).1,
        Except.ok (get_ai_response env (apologyOf h e) st₁).2) ∧
    (handlerOf h env st).1.stage = st₁.stage := by
  have hh : handlerOf h env st = pyTry (handlerBodyOf h env)
      (fun e s => get_ai_response env (apologyOf h e) s) st := by
    cases h <;> rfl
  constructor
  · rw [hh, pyTry_fault _ _ _ _ _ hf]
  · rw [hh, pyTry_fault _ _ _ _ _ hf]
    exact (get_ai_response_frame env _ st₁).1

/-- Witness for C2: a raised search fault inside the market-research handler. -/
theorem c2_handler_fault_witness :
    handlerBodyOf HandlerId.market faultEnv stUrl = (stUrl, Except.error "boom") ∧
    handlerOf HandlerId.market faultEnv stUrl =
      ((get_ai_response faultEnv (apologyOf HandlerId.market "boom") stUrl).1,
        Except.ok (get_ai_response faultEnv (apologyOf HandlerId.market "boom") stUrl).2) ∧
    (handlerOf HandlerId.market faultEnv stUrl).1.stage = stUrl.stage :=
  ⟨rfl, (c2_handler_fault HandlerId.market faultEnv stUrl stUrl "boom" rfl).1,
    (c2_handler_fault HandlerId.market faultEnv stUrl stUrl "boom" rfl).2⟩

/-! Stage-advance lemmas for the recursive handler chain, proved bottom-up. -/

/-- The final-summary handler never changes the stage. -/
theorem handle_final_summary_stage (env : Env) (st : OrchState) :
    (handle_final_summary env st).1.stage = st.stage := by
  unfold handle_final_summary
  rw [pyTry_stage]
  unfold handle_final_summary_body
  exact (okAi_frame env _ st).1

/-- The chain step keeps the next handler\x27s state. -/
theorem chainStep_fst (p : OrchState × String)
    (res : OrchState × Except String String) :
    (chainStep p res).1 = res.1 := by
  rcases res with ⟨s, r⟩
  cases r <;> rfl

/-- The marketing-strategy handler leaves the stage alone or moves it to
`final_summary`. -/
theorem handle_marketing_strategy_stage (env : Env) (st : OrchState) :
    (handle_marketing_strategy env st).1.stage = st.stage ∨
      6 ≤ ((handle_marketing_strategy env st).1.stage).idx := by
  unfold handle_marketing_strategy
  rw [pyTry_stage]
  unfold handle_marketing_strategy_body
  rcases hS : env.llmStrategies st with e | text
  · simp only [hS]
    left
    trivial
  · simp only [hS]
    right
    simp only [chainStep_fst, handle_final_summary_stage]
    decide

/-- A marketing-strategy call entered in its own stage ends at index ≥ 5. -/
theorem handle_marketing_strategy_stage_ge (env : Env) (X : OrchState)
    (hX : X.stage = Stage.marketing_strategy) :
    5 ≤ ((handle_marketing_strategy env X).1.stage).idx := by
  rcases handle_marketing_strategy_stage env X with h | h
  · rw [h, hX]
    decide
  · omega

/-- The audience-segmentation handler leaves the stage alone or moves it at
least to `marketing_strategy`. -/
theorem handle_audience_segmentation_stage (env : Env) (st : OrchState) :
    (handle_audience_segmentation env st).1.stage = st.stage ∨
      5 ≤ ((handle_audience_segmentation env st).1.stage).idx := by
  unfold handle_audience_segmentation
  rw [pyTry_stage]
  unfold handle_audience_segmentation_body
  cases hcd : st.category_data with
  | none =>
    left
    exact (okAi_frame env _ st).1
  | some cd =>
    by_cases hsegs : cd.audience_segments.isEmpty = true
    · simp only [hcd, hsegs, if_true]
      left
      exact (okAi_frame env _ st).1
    · simp only [hcd, hsegs, Bool.false_eq_true, if_false]
      right
      simp only [chainStep_fst]
      exact handle_marketing_strategy_stage_ge env _ rfl

/-- An audience-segmentation call entered in its own stage ends at index ≥ 4. -/
theorem handle_audience_segmentation_stage_ge (env : Env) (X : OrchState)
    (hX : X.stage = Stage.audience_segmentation) :
    4 ≤ ((handle_audience_segmentation env X).1.stage).idx := by
  rcases handle_audience_segmentation_stage env X with h | h
  · rw [h, hX]
    decide
  · omega

/-- The category-mapping handler leaves the stage alone or moves it at least
to `audience_segmentation`. -/
theorem handle_category_mapping_stage (env : Env) (st : OrchState) :
    (handle_category_mapping env st).1.stage = st.stage ∨
      4 ≤ ((handle_category_mapping env st).1.stage).idx := by
  unfold handle_category_mapping
  rw [pyTry_stage]
  unfold handle_category_mapping_body
  cases hpd : st.product_data with
  | none =>
    left
    cases hmd : st.market_data <;> exact (okAi_frame env _ st).1
  | some pd =>
    cases hmd : st.market_data with
    | none =>
      left
      exact (okAi_frame env _ st).1
    | some md =>
      simp only [hpd, hmd]
      rcases hTop : env.categoryTop pd.description with e | topRes
      · simp only [hTop]
        left
        trivial
      · simp only [hTop]
        by_cases hsuc : topRes.success = true
        · simp only [hsuc, Bool.not_true, Bool.false_eq_true, if_false]
          cases hres : topRes.result with
          | none =>
            left
            rfl
          | some topData =>
            by_cases hEmpty : topData.categories.isEmpty = true
            · simp only [hEmpty, if_true]
              left
              exact (okAi_frame env _ st).1
            · simp only [hEmpty, Bool.false_eq_true, if_false]
              right
              simp only [chainStep_fst]
              exact handle_audience_segmentation_stage_ge env _ rfl
        · simp only [Bool.not_eq_true] at hsuc
          simp only [hsuc, Bool.not_false, if_true]
          left
          exact (okAi_frame env _ st).1

/-- A category-mapping call entered in its own stage ends at index ≥ 3. -/
theorem handle_category_mapping_stage_ge (env : Env) (X : OrchState)
    (hX : X.stage = Stage.category_mapping) :
    3 ≤ ((handle_category_mapping env X).1.stage).idx := by
  rcases handle_category_mapping_stage env X with h | h
  · rw [h, hX]
    decide
  · omega

/-- The market-research handler leaves the stage alone or moves it at least
to `category_mapping`. -/
theorem handle_market_research_stage (env : Env) (st : OrchState) :
    (handle_market_research env st).1.stage = st.stage ∨
      3 ≤ ((handle_market_research env st).1.stage).idx := by
  unfold handle_market_research
  rw [pyTry_stage]
  unfold handle_market_research_body
  cases hpd : st.product_data with
  | none =>
    left
    exact (okAi_frame env _ st).1
  | some pd =>
    by_cases ht : pd.title = ""
    · simp only [hpd, ht, if_true]
      left
      exact (okAi_frame env _ st).1
    · simp only [hpd, ht, if_false]
      rcases hserp : env.serp pd.title 10 with e | r
      · simp only [hserp]
        left
        trivial
      · simp only [hserp]
        by_cases hsuc : r.success = true
        · simp only [hsuc, Bool.not_true, Bool.false_eq_true, if_false]
          cases hres : r.result with
          | none =>
            left
            rfl
          | some md =>
            right
            simp only [chainStep_fst]
            exact handle_category_mapping_stage_ge env _ rfl
        · simp only [Bool.not_eq_true] at hsuc
          simp only [hsuc, Bool.not_false, if_true]
          left
          exact (okAi_frame env _ st).1

/-- A market-research call entered in its own stage ends at index ≥ 2. -/
theorem handle_market_research_stage_ge (env : Env) (X : OrchState)
    (hX : X.stage = Stage.market_research) :
    2 ≤ ((handle_market_research env X).1.stage).idx := by
  rcases handle_market_research_stage env X with h | h
  · rw [h, hX]
    decide
  · omega


/-- C3: from any pipeline stage (neither `initial` nor `final_summary`), a
message that is not a literal cancel/stop advances the stage to exactly the
next stage in the fixed order and immediately runs that stage\x27s handler —
the message content enters only the history — and the resulting stage index
strictly exceeds the starting one (a successful handler call never
regresses). -/
theorem c3_stage_advance (env : Env) (msg : String) (st : OrchState)
    (hs : st.stage ∈ pipelineStages)
    (hc : ¬(pyToLower (pyStrip msg) = "cancel" ∨ pyToLower (pyStrip msg) = "stop")) :
    process_message env msg st =
      stage_handler (nextStage st.stage) env
        { st with
          history := st.history ++ [⟨"user", msg⟩]
          stage := nextStage st.stage } ∧
    st.stage.idx < ((process_message env msg st).1.stage).idx := by
  rcases st with ⟨stg, hist, pd, md, cd, fr⟩
  fin_cases hs
  · constructor
    · simp [process_message, stage_handler, nextStage, hc]
    · have he : process_message env msg ⟨Stage.url_analysis, hist, pd, md, cd, fr⟩ =
          handle_market_research env
            ⟨Stage.market_research, hist ++ [⟨"user", msg⟩], pd, md, cd, fr⟩ := by
        simp [process_message, hc]
      rw [he]
      have hge := handle_market_research_stage_ge env
        ⟨Stage.market_research, hist ++ [⟨"user", msg⟩], pd, md, cd, fr⟩ rfl
      exact lt_of_lt_of_le ((by decide : (1 : Nat) < 2)) hge
  · constructor
    · simp [process_message, stage_handler, nextStage, hc]
    · have he : process_message env msg ⟨Stage.market_research, hist, pd, md, cd, fr⟩ =
          handle_category_mapping env
            ⟨Stage.category_mapping, hist ++ [⟨"user", msg⟩], pd, md, cd, fr⟩ := by
        simp [process_message, hc]
      rw [he]
      have hge := handle_category_mapping_stage_ge env
        ⟨Stage.category_mapping, hist ++ [⟨"user", msg⟩], pd, md, cd, fr⟩ rfl
      exact lt_of_lt_of_le ((by decide : (2 : Nat) < 3)) hge
  · constructor
    · simp [process_message, stage_handler, nextStage, hc]
    · have he : process_message env msg ⟨Stage.category_mapping, hist, pd, md, cd, fr⟩ =
          handle_audience_segmentation env
            ⟨Stage.audience_segmentation, hist ++ [⟨"user", msg⟩], pd, md, cd, fr⟩ := by
        simp [process_message, hc]
      rw [he]
      have hge := handle_audience_segmentation_stage_ge env
        ⟨Stage.audience_segmentation, hist ++ [⟨"user", msg⟩], pd, md, cd, fr⟩ rfl
      exact lt_of_lt_of_le ((by decide : (3 : Nat) < 4)) hge
  · constructor
    · simp [process_message, stage_handler, nextStage, hc]
    · have he : process_message env msg
          ⟨Stage.audience_segmentation, hist, pd, md, cd, fr⟩ =
          handle_marketing_strategy env
            ⟨Stage.marketing_strategy, hist ++ [⟨"user", msg⟩], pd, md, cd, fr⟩ := by
        simp [process_message, hc]
      rw [he]
      have hge := handle_marketing_strategy_stage_ge env
        ⟨Stage.marketing_strategy, hist ++ [⟨"user", msg⟩], pd, md, cd, fr⟩ rfl
      exact lt_of_lt_of_le ((by decide : (4 : Nat) < 5)) hge
  · constructor
    · simp [process_message, stage_handler, nextStage, hc]
    · have he : process_message env msg
          ⟨Stage.marketing_strategy, hist, pd, md, cd, fr⟩ =
          handle_final_summary env
            ⟨Stage.final_summary, hist ++ [⟨"user", msg⟩], pd, md, cd, fr⟩ := by
        simp [process_message, hc]
      rw [he, handle_final_summary_stage]
      show (5 : Nat) < 6
      decide

/-- Witness for C3: a "continue" message in the url_analysis stage
dispatches to the market-research handler with the stage advanced. -/
theorem c3_stage_advance_witness :
    stUrl.stage ∈ pipelineStages ∧
    process_message stubEnv "go" stUrl =
      stage_handler (nextStage stUrl.stage) stubEnv
        { stUrl with
          history := stUrl.history ++ [⟨"user", "go"⟩]
          stage := nextStage stUrl.stage } ∧
    stUrl.stage.idx < ((process_message stubEnv "go" stUrl).1.stage).idx :=
  ⟨by decide, (c3_stage_advance stubEnv "go" stUrl (by decide) (by decide)).1,
    (c3_stage_advance stubEnv "go" stUrl (by decide) (by decide)).2⟩

/-- C8 (amended): a literal cancel/stop message arriving in a pipeline stage
(url_analysis through marketing_strategy) resets the stage to `initial` and
leaves all four accumulated data dictionaries unchanged.  (In
`final_summary` such a message is instead treated as a Q&A turn and the
stage stays `final_summary`; see the counterexample.) -/
theorem c8_cancel_reset (env : Env) (msg : String) (st : OrchState)
    (hs : st.stage ∈ pipelineStages)
    (hc : pyToLower (pyStrip msg) = "cancel" ∨ pyToLower (pyStrip msg) = "stop") :
    (process_message env msg st).1.stage = Stage.initial ∧
    (process_message env msg st).1.product_data = st.product_data ∧
    (process_message env msg st).1.market_data = st.market_data ∧
    (process_message env msg st).1.category_data = st.category_data ∧
    (process_message env msg st).1.final_results = st.final_results := by
  rcases st with ⟨stg, hist, pd, md, cd, fr⟩
  have he : process_message env msg ⟨stg, hist, pd, md, cd, fr⟩ =
      okAi env cancel_text ⟨Stage.initial, hist ++ [⟨"user", msg⟩], pd, md, cd, fr⟩ := by
    fin_cases hs <;>
      (simp only [process_message]
       rw [if_neg (by simp), if_neg (by simp), if_pos hc])
  rw [he]
  obtain ⟨h1, h2, h3, h4, h5, _⟩ := okAi_frame env cancel_text
    ⟨Stage.initial, hist ++ [⟨"user", msg⟩], pd, md, cd, fr⟩
  exact ⟨h1, h2, h3, h4, h5⟩

/-- Counterexample to C8 as stated: in `final_summary`, a literal "cancel"
message is handled as a Q&A turn and the stage is not reset to `initial`. -/
theorem c8_cancel_counterexample :
    pyToLower (pyStrip "cancel") = "cancel" ∧
    stFS.stage = Stage.final_summary ∧
    (process_message stubEnv "cancel" stFS).1.stage ≠ Stage.initial := by
  refine ⟨by decide, by decide, ?_⟩
  decide

/-- Witness for C8 (amended) on a concrete pipeline-stage state. -/
theorem c8_cancel_reset_witness :
    stUrl.stage ∈ pipelineStages ∧
    (process_message stubEnv " CANCEL " stUrl).1.stage = Stage.initial ∧
    (process_message stubEnv " CANCEL " stUrl).1.product_data = stUrl.product_data :=
  ⟨by decide, (c8_cancel_reset stubEnv " CANCEL " stUrl (by decide) (by decide)).1,
    (c8_cancel_reset stubEnv " CANCEL " stUrl (by decide) (by decide)).2.1⟩

/-- A rejected URL yields the specific failure without consulting the scrape
service: the result is the same for every `parse` and every `app`. -/
theorem firecrawlerExecute_rejects {σ : Type} (parse : σ → ProductData)
    (app : Option (String → Except String (Option σ))) (url : String)
    (hbad : (strStartsWith url "http://" || strStartsWith url "https://") = false ∨
      (example_domains.any (fun d => strContains (pyToLower url) d)) = true) :
    firecrawlerExecute parse none app url =
      failResult ProductData "firecrawler" (c9Err url) := by
  unfold firecrawlerExecute c9Err
  rcases hbad with h | h
  · simp [h]
  · by_cases hs : (strStartsWith url "http://" || strStartsWith url "https://") = false
    · simp [hs]
    · simp only [Bool.not_eq_false] at hs
      simp [hs, h]

/-- C9: a URL without an http/https scheme, or one containing a denylisted
placeholder domain, makes the scraper return `success=false` with the
specific error string for that case, independently of the scrape service;
consequently a message carrying such a URL in stage `initial` produces the
narration of the retry-suggesting trouble message, and the stage stays at
`initial` (at or before `url_analysis` — the failed step never advances). -/
theorem c9_url_validation {σ : Type} (parse : σ → ProductData)
    (app : Option (String → Except String (Option σ)))
    (env : Env) (msg url : String) (st : OrchState)
    (henv : env.firecrawl = fun u _ =>
      Except.ok (firecrawlerExecute parse none app u))
    (hurl : extract_url msg = some url)
    (hbad : (strStartsWith url "http://" || strStartsWith url "https://") = false ∨
      (example_domains.any (fun d => strContains (pyToLower url) d)) = true)
    (hstage : st.stage = Stage.initial) :
    (firecrawlerExecute parse none app url).success = false ∧
    (firecrawlerExecute parse none app url).error = some (c9Err url) ∧
    process_message env msg st =
      okAi env (url_trouble_text (some (c9Err url)))
        { st with history := st.history ++ [⟨"user", msg⟩] } ∧
    (process_message env msg st).1.stage = Stage.initial ∧
    ((process_message env msg st).1.stage).idx ≤ Stage.url_analysis.idx ∧
    strContains (url_trouble_text (some (c9Err url)))
      "Please try a different URL or try again later" = true := by
  have hfail := firecrawlerExecute_rejects parse app url hbad
  have hany : ((pySplit msg).any (fun w => strStartsWith w "http")) = true := by
    have hmem := List.mem_of_find?_eq_some hurl
    have hp := List.find?_some hurl
    exact List.any_eq_true.mpr ⟨url, hmem, hp⟩
  have hmain : process_message env msg st =
      okAi env (url_trouble_text (some (c9Err url)))
        { st with history := st.history ++ [⟨"user", msg⟩] } := by
    rcases st with ⟨stg, hist, pd, md, cd, fr⟩
    simp only [OrchState.stage] at hstage
    subst hstage
    simp only [process_message, hany, if_true]
    unfold handle_url_analysis
    rw [hurl]
    unfold handle_url_analysis_core pyTry handle_url_analysis_body
    simp only [henv, hfail, failResult]
    rfl
  refine ⟨by rw [hfail]; rfl, by rw [hfail]; rfl, hmain, ?_, ?_, ?_⟩
  · rw [hmain]
    rw [(okAi_frame env _ _).1]
    exact hstage
  · rw [hmain]
    rw [(okAi_frame env _ _).1]
    rw [hstage]
    decide
  · unfold c9Err
    by_cases hs : (strStartsWith url "http://" || strStartsWith url "https://") = false
    · simp only [hs, if_true]
      decide
    · simp only [hs, if_false]
      decide

/-- Witness for C9 on the denylisted URL of Scenario B. -/
theorem c9_url_validation_witness :
    extract_url "analyze http://example.com/fake" = some "http://example.com/fake" ∧
    (example_domains.any (fun d =>
      strContains (pyToLower "http://example.com/fake") d)) = true ∧
    (process_message wiredEnv "analyze http://example.com/fake" st0).1.stage =
      Stage.initial := by
  refine ⟨by decide, by decide, ?_⟩
  exact (c9_url_validation (fun p : ProductData => p)
    (some (fun _ => Except.ok (some testProduct))) wiredEnv
    "analyze http://example.com/fake" "http://example.com/fake" st0 rfl (by decide)
    (Or.inr (by decide)) rfl).2.2.2.1


end Spec2Proof
